import Mathlib

/-!
Verification of the fantasy-basketball decision-support core
(scoring engine, lineup optimizer, trade analyzer, streaming optimizer,
opponent analyzer) against its natural-language specification.

The Python source is shallowly embedded:
* player-projection dicts become the `PlayerProjection` record; a dict key
  that is absent reads as `0` via `.get(key, 0)`, which the record models by
  carrying every field the core ever reads (a caller-supplied dict lacking a
  field corresponds to the record holding `0` there);
* Python floats become exact rationals (`ℚ`); `round(x, n)` becomes `pyRound`,
  decimal round-half-to-even on exact rationals;
* Python's in-place stable `list.sort(key=...)` becomes the stable insertion
  sorts `sortAsc` / `sortDesc`; where the source sorts a caller's list in
  place, a separate `...After` definition gives the caller-visible state of
  that list after the call;
* code that can raise (`ZeroDivisionError` on `x / 0`) returns `Option`,
  `none` standing for the raised exception.
-/

/-- Round-half-to-even of a rational to an integer, the tie rule of Python's
builtin `round`. -/
def roundHalfEven (q : ℚ) : ℤ :=
  let f := ⌊q⌋
  let r := q - (f : ℚ)
  if r < 1/2 then f
  else if 1/2 < r then f + 1
  else if f % 2 = 0 then f else f + 1

/-- Python's `round(q, nd)`: round to `nd` decimal places, ties to even. -/
def pyRound (nd : ℕ) (q : ℚ) : ℚ :=
  (roundHalfEven (q * 10 ^ nd) : ℚ) / 10 ^ nd

/-- Stable insertion step for a descending sort: `p` goes in front of the
first element whose key is not larger, so earlier elements win ties. -/
def insertDesc {α : Type} (key : α → ℚ) (p : α) : List α → List α
  | [] => [p]
  | q :: rest => if key p < key q then q :: insertDesc key p rest else p :: q :: rest

/-- Stable descending sort by a rational key: the result of Python's
`list.sort(key=..., reverse=True)`. -/
def sortDesc {α : Type} (key : α → ℚ) : List α → List α
  | [] => []
  | p :: rest => insertDesc key p (sortDesc key rest)

/-- Stable insertion step for an ascending sort. -/
def insertAsc {α : Type} (key : α → ℚ) (p : α) : List α → List α
  | [] => [p]
  | q :: rest => if key q < key p then q :: insertAsc key p rest else p :: q :: rest

/-- Stable ascending sort by a rational key: the result of Python's
`list.sort(key=...)`. -/
def sortAsc {α : Type} (key : α → ℚ) : List α → List α
  | [] => []
  | p :: rest => insertAsc key p (sortAsc key rest)

/-- First value stored under a key in an association list (a Python dict
lookup), or a default. -/
def dictGetD {α : Type} (l : List (String × α)) (k : String) (d : α) : α :=
  match l.find? (fun kv => kv.1 = k) with
  | some kv => kv.2
  | none => d


/-- Python's `str.endswith`, over the character list of the string (the
builtin `String.endsWith` does not reduce in the kernel). -/
def strEndsWith (s suffix : String) : Bool :=
  suffix.data.isSuffixOf s.data

/-- Python's `str.lower` for the ASCII category codes used here. -/
def pyToLower (s : String) : String :=
  ⟨s.data.map Char.toLower⟩

/-- `split` of a character list on one separator character, Python's
`str.split(',')` semantics: `""` splits to `[""]`. -/
def splitOnChar (c : Char) : List Char → List (List Char)
  | [] => [[]]
  | x :: xs =>
    match splitOnChar c xs with
    | [] => [[x]]
    | h :: t => if x == c then [] :: h :: t else (x :: h) :: t

/-- Python's `str.split(',')`. -/
def pySplitComma (s : String) : List String :=
  (splitOnChar ',' s.data).map (fun cs => ⟨cs⟩)

/-- Python's `str.strip()`: drop leading and trailing whitespace. -/
def pyStrip (s : String) : String :=
  ⟨((s.data.dropWhile Char.isWhitespace).reverse.dropWhile Char.isWhitespace).reverse⟩

/-- A player-projection record.  Fields `value`, `games_remaining` and
`remaining_value` are the dict slots that `optimize_lineup` and
`generate_streaming_suggestions` write into the caller's dicts; on input they
hold whatever the caller's dict held (`0` when absent). -/
structure PlayerProjection where
  player_id : ℕ := 0
  player_name : String := ""
  player_position : String := ""
  team : String := ""
  points_per_game : ℚ := 0
  rebounds_per_game : ℚ := 0
  assists_per_game : ℚ := 0
  steals_per_game : ℚ := 0
  blocks_per_game : ℚ := 0
  turnovers_per_game : ℚ := 0
  three_pointers_made : ℚ := 0
  three_pointers_attempted : ℚ := 0
  field_goals_made : ℚ := 0
  field_goals_attempted : ℚ := 0
  free_throws_made : ℚ := 0
  free_throws_attempted : ℚ := 0
  offensive_rebounds : ℚ := 0
  defensive_rebounds : ℚ := 0
  minutes_per_game : ℚ := 0
  field_goal_percentage : ℚ := 0
  free_throw_percentage : ℚ := 0
  value : ℚ := 0
  games_remaining : ℚ := 0
  remaining_value : ℚ := 0
  deriving DecidableEq

/-- `proj.get(key, 0)` on a projection dict: the named numeric field, `0` for
a key the record does not carry. -/
def projGet (p : PlayerProjection) (key : String) : ℚ :=
  if key = "points_per_game" then p.points_per_game
  else if key = "rebounds_per_game" then p.rebounds_per_game
  else if key = "assists_per_game" then p.assists_per_game
  else if key = "steals_per_game" then p.steals_per_game
  else if key = "blocks_per_game" then p.blocks_per_game
  else if key = "turnovers_per_game" then p.turnovers_per_game
  else if key = "three_pointers_made" then p.three_pointers_made
  else if key = "three_pointers_attempted" then p.three_pointers_attempted
  else if key = "field_goals_made" then p.field_goals_made
  else if key = "field_goals_attempted" then p.field_goals_attempted
  else if key = "free_throws_made" then p.free_throws_made
  else if key = "free_throws_attempted" then p.free_throws_attempted
  else if key = "offensive_rebounds" then p.offensive_rebounds
  else if key = "defensive_rebounds" then p.defensive_rebounds
  else if key = "minutes_per_game" then p.minutes_per_game
  else if key = "field_goal_percentage" then p.field_goal_percentage
  else if key = "free_throw_percentage" then p.free_throw_percentage
  else 0

/-- `key_mapping` for percentage categories, shared by `calculate_roto_score`
and `calculate_category_total` (dbb2_scoring_engine.py lines 46-51, 336-341):
category code to (makes key, attempts key). -/
def pctKeyMapping (category : String) : Option (String × String) :=
  if category = "FG_PCT" then some ("field_goals_made", "field_goals_attempted")
  else if category = "FT_PCT" then some ("free_throws_made", "free_throws_attempted")
  else if category = "THREE_PCT" then some ("three_pointers_made", "three_pointers_attempted")
  else if category = "3P_PCT" then some ("three_pointers_made", "three_pointers_attempted")
  else none

/-- `key_mapping` for counting categories in `calculate_category_total`
(dbb2_scoring_engine.py lines 353-363); unknown codes fall back to
`category.lower()`. -/
def countingKey (category : String) : String :=
  if category = "PTS" then "points_per_game"
  else if category = "REB" then "rebounds_per_game"
  else if category = "AST" then "assists_per_game"
  else if category = "STL" then "steals_per_game"
  else if category = "BLK" then "blocks_per_game"
  else if category = "TO" then "turnovers_per_game"
  else if category = "3PM" then "three_pointers_made"
  else if category = "FGM" then "field_goals_made"
  else if category = "FTM" then "free_throws_made"
  else pyToLower category

/-- `key_mapping` for counting categories inside `calculate_roto_score`
(dbb2_scoring_engine.py lines 77-89): the same table plus OREB and DREB. -/
def rotoCountingKey (category : String) : String :=
  if category = "OREB" then "offensive_rebounds"
  else if category = "DREB" then "defensive_rebounds"
  else countingKey category

/-- `calculate_category_total` (dbb2_scoring_engine.py lines 317-368): a
`_PCT` category known to the mapping divides summed scaled makes by summed
scaled attempts (0 when the scaled attempts total is not positive); an
unknown `_PCT` category yields 0; any other category sums its stat scaled by
`games_per_week`. -/
def calculate_category_total (projections : List PlayerProjection)
    (category : String) (games_per_week : ℚ) : ℚ :=
  if strEndsWith category "_PCT" then
    match pctKeyMapping category with
    | some (makes_key, attempts_key) =>
      let total_makes := (projections.map (fun p => projGet p makes_key * games_per_week)).sum
      let total_attempts := (projections.map (fun p => projGet p attempts_key * games_per_week)).sum
      if total_attempts > 0 then total_makes / total_attempts else 0
    | none => 0
  else
    (projections.map (fun p => projGet p (countingKey category) * games_per_week)).sum

/-- The `actual` value computed by the first loop of `calculate_roto_score`
(dbb2_scoring_engine.py lines 34-97), together with the makes/attempts pair it
records for a known `_PCT` category. -/
def rotoCategoryTotal (projections : List PlayerProjection)
    (category : String) (games_per_week : ℚ) : ℚ × Option (ℚ × ℚ) :=
  if strEndsWith category "_PCT" then
    match pctKeyMapping category with
    | some (makes_key, attempts_key) =>
      let total_makes := (projections.map (fun p => projGet p makes_key * games_per_week)).sum
      let total_attempts := (projections.map (fun p => projGet p attempts_key * games_per_week)).sum
      let total := if total_attempts > 0 then total_makes / total_attempts else 0
      (total, some (total_makes, total_attempts))
    | none => (0, none)
  else
    ((projections.map (fun p => projGet p (rotoCountingKey category) * games_per_week)).sum, none)

/-- The mean of the individual players' percentages.  This is the *incorrect*
aggregate that the spec contrasts ratio categories against; it exists only to
be compared with `calculate_category_total`, not to model any source code. -/
def meanOfIndividualPct (projections : List PlayerProjection)
    (makes_key attempts_key : String) : ℚ :=
  (projections.map (fun p => projGet p makes_key / projGet p attempts_key)).sum
    / projections.length

/-- One entry of `category_results` in `calculate_roto_score`
(dbb2_scoring_engine.py lines 107-135). -/
structure RotoCatResult where
  target : ℚ
  actual : ℚ
  gap : ℚ
  percentage_complete : ℚ
  makes : Option ℚ
  attempts : Option ℚ
  status : String
  deriving DecidableEq

/-- Result of `calculate_roto_score`. -/
structure RotoScoreResult where
  category_results : List (String × RotoCatResult)
  ahead_count : ℕ
  behind_count : ℕ
  on_track_count : ℕ
  games_counted : ℚ
  deriving DecidableEq

/-- The `category_results` entry that `calculate_roto_score` builds for one
category (dbb2_scoring_engine.py lines 102-135): rounded actual and gap,
guarded completion percentage, makes/attempts echoed for `_PCT` categories,
and the status chain — inverted for `TO`, where lower is better. -/
def rotoCatEntry (projections : List PlayerProjection)
    (weekly_targets : String → ℚ) (games_per_week : ℚ) (cat : String) : RotoCatResult :=
  let target := weekly_targets cat
  let totals := rotoCategoryTotal projections cat games_per_week
  let actual := totals.1
  let gap := target - actual
  let status :=
    if cat = "TO" then
      if actual ≤ target then "ahead"
      else if gap < 5 then "on_track"
      else "behind"
    else
      if actual ≥ target then "ahead"
      else if gap ≤ target * (1/10) then "on_track"
      else "behind"
  { target := target
    actual := pyRound 2 actual
    gap := pyRound 2 gap
    percentage_complete := pyRound 1 (if target > 0 then actual / target * 100 else 0)
    makes := if strEndsWith cat "_PCT" then some (pyRound 1 ((totals.2.getD (0, 0)).1)) else none
    attempts := if strEndsWith cat "_PCT" then some (pyRound 1 ((totals.2.getD (0, 0)).2)) else none
    status := status }

/-- `calculate_roto_score` (dbb2_scoring_engine.py lines 12-148).
`weekly_targets` is the target dict already defaulted: applying the function
is `weekly_targets.get(cat, 0)`.  The per-category loop is rendered as a map
over the category list, and the status tallies as counts over the built
entries, which is what the source's in-loop accumulation computes. -/
def calculate_roto_score (roster_projections : List PlayerProjection)
    (categories : List String) (weekly_targets : String → ℚ)
    (games_per_week : ℚ) : RotoScoreResult :=
  let category_results := categories.map
    (fun cat => (cat, rotoCatEntry roster_projections weekly_targets games_per_week cat))
  { category_results := category_results
    ahead_count := (category_results.filter (fun r => r.2.status = "ahead")).length
    behind_count := (category_results.filter (fun r => r.2.status = "behind")).length
    on_track_count := (category_results.filter (fun r => r.2.status = "on_track")).length
    games_counted := games_per_week * roster_projections.length }

/-- One entry of `category_breakdown` in `calculate_h2h_categories`
(dbb2_scoring_engine.py lines 214-221). -/
structure H2HCatEntry where
  category : String
  my_total : ℚ
  opponent_total : ℚ
  difference : ℚ
  percent_difference : ℚ
  status : String
  deriving DecidableEq

/-- Result of `calculate_h2h_categories`. -/
structure H2HCatResult where
  matchup_result : String
  wins : ℕ
  losses : ℕ
  ties : ℕ
  categories_won : List String
  categories_lost : List String
  category_breakdown : List H2HCatEntry
  close_categories : List H2HCatEntry
  blowout_categories : List H2HCatEntry
  winning_probability : ℚ
  deriving DecidableEq

/-- The breakdown entry for one category (dbb2_scoring_engine.py
lines 187-221): status from the unrounded totals, comparison inverted for
`TO`. -/
def h2hCatEntry (my_projections opponent_projections : List PlayerProjection)
    (games_per_week : ℚ) (cat : String) : H2HCatEntry :=
  let my_val := calculate_category_total my_projections cat games_per_week
  let opp_val := calculate_category_total opponent_projections cat games_per_week
  let diff := my_val - opp_val
  let status :=
    if cat = "TO" then
      if my_val < opp_val then "win"
      else if my_val > opp_val then "loss"
      else "tie"
    else
      if my_val > opp_val then "win"
      else if my_val < opp_val then "loss"
      else "tie"
  { category := cat
    my_total := pyRound 2 my_val
    opponent_total := pyRound 2 opp_val
    difference := pyRound 2 diff
    percent_difference := pyRound 1 (if opp_val > 0 then diff / opp_val * 100 else 0)
    status := status }

/-- `calculate_h2h_categories` (dbb2_scoring_engine.py lines 151-254).  The
win/loss/tie tallies accumulated inside the source's loop are the counts of
the corresponding statuses over the breakdown the same loop appends to, and
are rendered as such.  `winning_probability` divides by `len(categories)`, so
an empty category list raises `ZeroDivisionError`: the embedding returns
`none` there. -/
def calculate_h2h_categories (my_projections opponent_projections : List PlayerProjection)
    (categories : List String) (games_per_week : ℚ) : Option H2HCatResult :=
  let category_breakdown := categories.map
    (h2hCatEntry my_projections opponent_projections games_per_week)
  let wins := (category_breakdown.filter (fun c => c.status = "win")).length
  let losses := (category_breakdown.filter (fun c => c.status = "loss")).length
  let ties := (category_breakdown.filter (fun c => c.status = "tie")).length
  if categories.length = 0 then none
  else some
    { matchup_result :=
        if wins > losses then "win" else if losses > wins then "loss" else "tie"
      wins := wins
      losses := losses
      ties := ties
      categories_won :=
        (category_breakdown.filter (fun c => c.status = "win")).map (fun c => c.category)
      categories_lost :=
        (category_breakdown.filter (fun c => c.status = "loss")).map (fun c => c.category)
      category_breakdown := category_breakdown
      close_categories := category_breakdown.filter
        (fun c => |c.percent_difference| ≤ 10 ∧ c.status ≠ "tie")
      blowout_categories := category_breakdown.filter
        (fun c => |c.percent_difference| > 30)
      winning_probability := pyRound 1 ((wins : ℚ) / (categories.length : ℚ) * 100) }

/-- One entry of `player_breakdown` in `calculate_h2h_points`
(dbb2_scoring_engine.py lines 302-305). -/
structure PlayerPointsEntry where
  player_name : String
  fantasy_points : ℚ
  deriving DecidableEq

/-- Result of `calculate_h2h_points`. -/
structure H2HPointsResult where
  total_fantasy_points : ℚ
  player_breakdown : List PlayerPointsEntry
  average_per_player : ℚ
  deriving DecidableEq

/-- `stat_mapping` of `calculate_h2h_points` (dbb2_scoring_engine.py
lines 281-293); unknown stats fall back to `stat.lower()`. -/
def pointsStatKey (stat : String) : String :=
  if stat = "PTS" then "points_per_game"
  else if stat = "REB" then "rebounds_per_game"
  else if stat = "AST" then "assists_per_game"
  else if stat = "STL" then "steals_per_game"
  else if stat = "BLK" then "blocks_per_game"
  else if stat = "TO" then "turnovers_per_game"
  else if stat = "3PM" then "three_pointers_made"
  else if stat = "FGM" then "field_goals_made"
  else if stat = "FGA" then "field_goals_attempted"
  else if stat = "FTM" then "free_throws_made"
  else if stat = "FTA" then "free_throws_attempted"
  else pyToLower stat

/-- A single player's fantasy points in `calculate_h2h_points`
(dbb2_scoring_engine.py lines 295-298). -/
def playerFantasyPoints (points_values : List (String × ℚ))
    (games_per_week : ℚ) (p : PlayerProjection) : ℚ :=
  (points_values.map (fun sv => projGet p (pointsStatKey sv.1) * sv.2 * games_per_week)).sum

/-- `calculate_h2h_points` (dbb2_scoring_engine.py lines 257-314):
`points_values` is the point-value dict as an association list; the breakdown
is sorted descending by rounded fantasy points (stable, as Python's sort). -/
def calculate_h2h_points (roster_projections : List PlayerProjection)
    (points_values : List (String × ℚ)) (games_per_week : ℚ) : H2HPointsResult :=
  let breakdown := roster_projections.map (fun p =>
    { player_name := p.player_name
      fantasy_points := pyRound 1 (playerFantasyPoints points_values games_per_week p)
      : PlayerPointsEntry })
  let total_points := (roster_projections.map
    (playerFantasyPoints points_values games_per_week)).sum
  { total_fantasy_points := pyRound 1 total_points
    player_breakdown := sortDesc (fun e => e.fantasy_points) breakdown
    average_per_player :=
      if roster_projections.length ≠ 0 then
        pyRound 1 (total_points / (roster_projections.length : ℚ))
      else 0 }

/-- One entry of `category_impact` in the trade analyzer
(dbb2_trade_analyzer.py lines 210-216). -/
structure CategoryImpact where
  current : ℚ
  post_trade : ℚ
  difference : ℚ
  percent_change : ℚ
  status : String
  deriving DecidableEq

/-- Result of `generate_trade_recommendation` (the cosmetic per-note text is
carried verbatim). -/
structure TradeRecommendation where
  verdict : String
  confidence : String
  reason : String
  categories_improved : ℕ
  categories_declined : ℕ
  notes : List String
  deriving DecidableEq

/-- `generate_trade_recommendation` (dbb2_trade_analyzer.py lines 270-350):
the verdict/confidence threshold chain on `value_change`, the improved and
declined tallies, and the note list. -/
def generate_trade_recommendation (value_change : ℚ)
    (category_impact : List (String × CategoryImpact)) : TradeRecommendation :=
  let improved := (category_impact.filter (fun c => c.2.status = "improved")).length
  let declined := (category_impact.filter (fun c => c.2.status = "declined")).length
  let vcr :=
    if value_change > 20 then ("ACCEPT", "Strong", "Excellent value gain")
    else if value_change > 10 then ("ACCEPT", "Moderate", "Good value gain")
    else if value_change > 0 then ("CONSIDER", "Low", "Slight value gain")
    else if value_change > -10 then ("CONSIDER", "Low", "Marginal value loss")
    else if value_change > -20 then ("DECLINE", "Moderate", "Notable value loss")
    else ("DECLINE", "Strong", "Significant value loss")
  let notes1 : List String :=
    if improved > declined then
      ["Improves " ++ toString improved ++ " categories, declines " ++ toString declined]
    else if declined > improved then
      ["Declines " ++ toString declined ++ " categories, improves " ++ toString improved]
    else []
  let major_improvements :=
    (category_impact.filter (fun c => c.2.percent_change > 15)).map (fun c => c.1)
  let notes2 : List String :=
    if major_improvements ≠ [] then
      ["Opportunity: Major improvement in " ++ String.intercalate ", " major_improvements]
    else []
  let major_declines :=
    (category_impact.filter (fun c => c.2.percent_change < -15)).map (fun c => c.1)
  let notes3 : List String :=
    if major_declines ≠ [] then
      ["Risk: Significant decline in " ++ String.intercalate ", " major_declines]
    else []
  { verdict := vcr.1
    confidence := vcr.2.1
    reason := vcr.2.2
    categories_improved := improved
    categories_declined := declined
    notes := notes1 ++ notes2 ++ notes3 }

/-- `calculate_trade_rating` (dbb2_trade_analyzer.py lines 353-390): the
letter-grade threshold chain on `percent_change` (`value_change` is accepted
and ignored, as in the source). -/
def calculate_trade_rating (value_change percent_change : ℚ) : String :=
  if percent_change ≥ 15 then "A+"
  else if percent_change ≥ 10 then "A"
  else if percent_change ≥ 7 then "A-"
  else if percent_change ≥ 5 then "B+"
  else if percent_change ≥ 3 then "B"
  else if percent_change ≥ 1 then "B-"
  else if percent_change ≥ -1 then "C+"
  else if percent_change ≥ -3 then "C"
  else if percent_change ≥ -5 then "C-"
  else if percent_change ≥ -7 then "D+"
  else if percent_change ≥ -10 then "D"
  else if percent_change ≥ -15 then "D-"
  else "F"

/-- Position of a letter grade on the scale F < D- < D < D+ < C- < C < C+ <
B- < B < B+ < A- < A < A+ named by the spec (0 for F up to 12 for A+; the
value for strings outside the scale is irrelevant to the claims). -/
def gradeRank (grade : String) : ℕ :=
  if grade = "F" then 0
  else if grade = "D-" then 1
  else if grade = "D" then 2
  else if grade = "D+" then 3
  else if grade = "C-" then 4
  else if grade = "C" then 5
  else if grade = "C+" then 6
  else if grade = "B-" then 7
  else if grade = "B" then 8
  else if grade = "B+" then 9
  else if grade = "A-" then 10
  else if grade = "A" then 11
  else if grade = "A+" then 12
  else 13

/-- `calculate_base_value` (dbb2_streaming_optimizer.py lines 173-191). -/
def calculate_base_value (player : PlayerProjection) : ℚ :=
  player.points_per_game * (1/2) +
  player.rebounds_per_game * (3/2) +
  player.assists_per_game * (3/2) +
  player.steals_per_game * 4 +
  player.blocks_per_game * 4 +
  player.three_pointers_made * 3

/-- The five versatility thresholds of `calculate_hotness_score`
(dbb2_streaming_optimizer.py lines 250-260); `categories_filled` counts how
many are met. -/
def hotnessCategoriesFilled (player : PlayerProjection) : ℕ :=
  (if player.rebounds_per_game ≥ 5 then 1 else 0) +
  (if player.assists_per_game ≥ 4 then 1 else 0) +
  (if player.steals_per_game ≥ 1 then 1 else 0) +
  (if player.blocks_per_game ≥ 8/10 then 1 else 0) +
  (if player.three_pointers_made ≥ 2 then 1 else 0)

/-- `calculate_hotness_score` (dbb2_streaming_optimizer.py lines 230-264). -/
def calculate_hotness_score (player : PlayerProjection) : ℚ :=
  let minutes_score := min (player.minutes_per_game / 35 * 40) 40
  let usage_score := min (player.points_per_game / 25 * 30) 30
  let versatility_score := (hotnessCategoriesFilled player : ℚ) * 6
  minutes_score + usage_score + versatility_score

/-- A streaming-candidate record, as built by `get_streaming_candidates`
and consumed by `generate_streaming_suggestions`. -/
structure StreamingCandidate where
  player_id : ℕ
  player_name : String
  games_remaining : ℚ
  streaming_value : ℚ
  deriving DecidableEq

/-- One add/drop suggestion from `generate_streaming_suggestions`
(dbb2_streaming_optimizer.py lines 151-167); the formatted `reason` display
string is presentation only and is not modelled. -/
structure StreamSuggestion where
  drop_player_id : ℕ
  drop_player_name : String
  drop_games_remaining : ℚ
  drop_remaining_value : ℚ
  add_player_id : ℕ
  add_player_name : String
  add_games_remaining : ℚ
  add_streaming_value : ℚ
  value_improvement : ℚ
  deriving DecidableEq

/-- The write that `generate_streaming_suggestions` performs on each roster
dict (dbb2_streaming_optimizer.py lines 137-140): `games_remaining` from the
games dict (default 2, also when the dict is absent or empty) and
`remaining_value = calculate_base_value * games_left`. -/
def streamRosterWrite (games_remaining_this_week : List (ℕ × ℕ))
    (p : PlayerProjection) : PlayerProjection :=
  let games_left : ℕ :=
    match games_remaining_this_week.find? (fun kv => kv.1 = p.player_id) with
    | some kv => kv.2
    | none => 2
  let games_leftQ : ℚ := Nat.cast games_left
  { p with
      games_remaining := games_leftQ
      remaining_value := calculate_base_value p * games_leftQ }

/-- The state of the caller's `roster_players` list after
`generate_streaming_suggestions` returns: every element has been written with
`games_remaining` and `remaining_value`, and the list has been sorted in place
ascending by `remaining_value` (dbb2_streaming_optimizer.py lines 137-143). -/
def rosterAfterStreamingSuggestions (roster_players : List PlayerProjection)
    (games_remaining_this_week : List (ℕ × ℕ)) : List PlayerProjection :=
  sortAsc (fun p => p.remaining_value)
    (roster_players.map (streamRosterWrite games_remaining_this_week))

/-- `generate_streaming_suggestions` (dbb2_streaming_optimizer.py
lines 117-170): each of the top 10 candidates is matched with the first of
the bottom 5 roster players whose remaining value it exceeds by more than
50% (the inner `break` yields at most one drop per candidate), and at most 5
suggestions are returned. -/
def generate_streaming_suggestions (streaming_candidates : List StreamingCandidate)
    (roster_players : List PlayerProjection)
    (games_remaining_this_week : List (ℕ × ℕ)) : List StreamSuggestion :=
  let sorted := rosterAfterStreamingSuggestions roster_players games_remaining_this_week
  (((streaming_candidates.take 10).filterMap (fun c =>
    ((sorted.take 5).find?
        (fun rp => c.streaming_value > rp.remaining_value * (3/2))).map
      (fun rp =>
        { drop_player_id := rp.player_id
          drop_player_name := rp.player_name
          drop_games_remaining := rp.games_remaining
          drop_remaining_value := pyRound 1 rp.remaining_value
          add_player_id := c.player_id
          add_player_name := c.player_name
          add_games_remaining := c.games_remaining
          add_streaming_value := c.streaming_value
          value_improvement := pyRound 1 (c.streaming_value - rp.remaining_value)
          : StreamSuggestion }))).take 5)

/-- `player.get('player_position', '').split(',')` followed by stripping each
piece, as done throughout the lineup optimizer and trade analyzer. -/
def splitPositions (p : PlayerProjection) : List String :=
  (pySplitComma p.player_position).map pyStrip

/-- `calculate_player_value` (dbb2_lineup_optimizer.py lines 129-167). -/
def calculate_player_value (player : PlayerProjection) (scoring_type : String) : ℚ :=
  if scoring_type = "h2h_points" then
    player.points_per_game * 1 +
    player.rebounds_per_game * (12/10) +
    player.assists_per_game * (15/10) +
    player.steals_per_game * 3 +
    player.blocks_per_game * 3 +
    player.three_pointers_made * 3 -
    player.turnovers_per_game * 1
  else
    player.points_per_game * (1/2) +
    player.rebounds_per_game * (15/10) +
    player.assists_per_game * (15/10) +
    player.steals_per_game * 4 +
    player.blocks_per_game * 4 +
    player.three_pointers_made * 3 +
    player.field_goal_percentage * 50 +
    player.free_throw_percentage * 30

/-- The state of the caller's `roster_with_projections` list after
`optimize_lineup` returns (dbb2_lineup_optimizer.py lines 29-34): the
computed value has been written into each dict's `value` slot, and the list
has been sorted in place descending by that value. -/
def rosterAfterOptimizeLineup (roster_with_projections : List PlayerProjection)
    (scoring_type : String) : List PlayerProjection :=
  sortDesc (fun p => p.value)
    (roster_with_projections.map
      (fun p => { p with value := calculate_player_value p scoring_type }))

/-- One scan of the sorted roster assigning into a slot until the required
count is reached (dbb2_lineup_optimizer.py lines 50-62): the first `need`
eligible, not-yet-assigned players in roster order.  The flex loops
(lines 66-102), which rescan from the start once per remaining slot and
assign the first eligible unassigned player each time, pick exactly the same
players. -/
def scanAssign : List PlayerProjection → (PlayerProjection → Bool) → List ℕ → ℕ →
    List PlayerProjection
  | _, _, _, 0 => []
  | [], _, _, _ + 1 => []
  | p :: rest, elig, assigned, n + 1 =>
    if p.player_id ∈ assigned then scanAssign rest elig assigned (n + 1)
    else if elig p then p :: scanAssign rest elig (p.player_id :: assigned) n
    else scanAssign rest elig assigned (n + 1)

/-- Setting a key of the lineup dict: replace the value at the first matching
key, appending a new entry when the key is absent. -/
def dictSet {α : Type} : List (String × α) → String → α → List (String × α)
  | [], pos, v => [(pos, v)]
  | kv :: rest, pos, v => if kv.1 = pos then (pos, v) :: rest else kv :: dictSet rest pos v

/-- `lineup = [pos: [] for pos in position_requirements]`
(dbb2_lineup_optimizer.py line 37). -/
def lineupInit (position_requirements : List (String × ℕ)) :
    List (String × List PlayerProjection) :=
  position_requirements.map (fun kv => (kv.1, ([] : List PlayerProjection)))

/-- The required count of a slot, when the slot is requested at all. -/
def lookupReq (position_requirements : List (String × ℕ)) (pos : String) : Option ℕ :=
  (position_requirements.find? (fun kv => kv.1 = pos)).map (fun kv => kv.2)

/-- One fill block of `optimize_lineup` for slot `pos` with eligibility
`elig`: skipped when the slot is not requested; otherwise the scan's picks
are stored in the lineup dict and their ids added to the assigned set. -/
def fillStage (roster : List PlayerProjection)
    (position_requirements : List (String × ℕ))
    (st : List (String × List PlayerProjection) × List ℕ)
    (pos : String) (elig : PlayerProjection → Bool) :
    List (String × List PlayerProjection) × List ℕ :=
  match lookupReq position_requirements pos with
  | none => st
  | some n =>
    let picked := scanAssign roster elig st.2 n
    (dictSet st.1 pos picked, picked.map (fun p => p.player_id) ++ st.2)

/-- Eligibility for an exact position slot (`pos in positions`). -/
def eligExact (pos : String) (p : PlayerProjection) : Bool :=
  (splitPositions p).contains pos

/-- Eligibility for the guard flex slot (`any(p in ['PG', 'SG'])`). -/
def eligG (p : PlayerProjection) : Bool :=
  (splitPositions p).any (fun q => q == "PG" || q == "SG")

/-- Eligibility for the forward flex slot (`any(p in ['SF', 'PF'])`). -/
def eligF (p : PlayerProjection) : Bool :=
  (splitPositions p).any (fun q => q == "SF" || q == "PF")

/-- The fill blocks of `optimize_lineup` in source order
(dbb2_lineup_optimizer.py lines 40-102): exact positions PG, SG, SF, PF, C,
then flex G, flex F, then UTIL. -/
def lineupStages : List (String × (PlayerProjection → Bool)) :=
  [("PG", eligExact "PG"), ("SG", eligExact "SG"), ("SF", eligExact "SF"),
   ("PF", eligExact "PF"), ("C", eligExact "C"), ("G", eligG), ("F", eligF),
   ("UTIL", fun _ => true)]

/-- Run a sequence of fill blocks left to right. -/
def fillStages (roster : List PlayerProjection)
    (position_requirements : List (String × ℕ)) :
    List (String × List PlayerProjection) × List ℕ →
      List (String × (PlayerProjection → Bool)) →
      List (String × List PlayerProjection) × List ℕ
  | st, [] => st
  | st, pe :: rest =>
    fillStages roster position_requirements
      (fillStage roster position_requirements st pe.1 pe.2) rest

/-- The lineup dict and assigned set after all fill blocks of
`optimize_lineup` (dbb2_lineup_optimizer.py lines 37-102). -/
def fillAll (roster : List PlayerProjection)
    (position_requirements : List (String × ℕ)) :
    List (String × List PlayerProjection) × List ℕ :=
  fillStages roster position_requirements
    (lineupInit position_requirements, ([] : List ℕ)) lineupStages

/-- A lineup-improvement suggestion (dbb2_lineup_optimizer.py lines 170-229);
the formatted `reason` display strings are presentation only and are not
modelled. -/
inductive LineupSuggestion where
  | swap (bench_out bench_in slot : String) (value_improvement : ℚ)
  | fillSlot (slot : String) (slots_empty : ℕ)
  deriving DecidableEq

/-- `generate_lineup_suggestions` (dbb2_lineup_optimizer.py lines 170-229):
every (bench player, eligible position, starter) triple whose bench value
beats the starter's value by more than 10% yields a swap suggestion, then
each requested non-bench slot left short yields a fill-slot suggestion. -/
def generate_lineup_suggestions (lineup : List (String × List PlayerProjection))
    (bench : List PlayerProjection)
    (position_requirements : List (String × ℕ)) : List LineupSuggestion :=
  let swaps := bench.flatMap (fun bp =>
    (splitPositions bp).flatMap (fun pos =>
      (dictGetD lineup pos []).filterMap (fun starter =>
        if bp.value > starter.value * (11/10) then
          some (.swap starter.player_name bp.player_name pos
            (pyRound 1 (bp.value - starter.value)))
        else none)))
  let fills := position_requirements.filterMap (fun kv =>
    if kv.1 = "BE" then none
    else
      let filled := (dictGetD lineup kv.1 []).length
      if filled < kv.2 then some (.fillSlot kv.1 (kv.2 - filled)) else none)
  swaps ++ fills

/-- Result of `optimize_lineup` (dbb2_lineup_optimizer.py lines 119-126). -/
structure LineupResult where
  lineup : List (String × List PlayerProjection)
  bench : List PlayerProjection
  total_value : ℚ
  starting_count : ℕ
  bench_count : ℕ
  lineup_suggestions : List LineupSuggestion
  deriving DecidableEq

/-- `optimize_lineup` (dbb2_lineup_optimizer.py lines 12-126).  The function
first mutates its input as `rosterAfterOptimizeLineup` records, then fills
the lineup greedily, sends every unassigned player to the bench and stores
the bench under `BE`. -/
def optimize_lineup (roster_with_projections : List PlayerProjection)
    (position_requirements : List (String × ℕ))
    (scoring_type : String) : LineupResult :=
  let roster := rosterAfterOptimizeLineup roster_with_projections scoring_type
  let filled := fillAll roster position_requirements
  let bench := roster.filter (fun p => p.player_id ∉ filled.2)
  let lineup := dictSet filled.1 "BE" bench
  { lineup := lineup
    bench := bench
    total_value := pyRound 1
      ((roster.filter (fun p => p.player_id ∈ filled.2)).map (fun p => p.value)).sum
    starting_count :=
      ((lineup.filter (fun kv => kv.1 ≠ "BE")).map (fun kv => kv.2.length)).sum
    bench_count := bench.length
    lineup_suggestions := generate_lineup_suggestions lineup bench position_requirements }

/-- The league-configuration record consumed by the opponent analyzer; field
defaults are the `league_config.get(..., default)` fallbacks of
dbb2_opponent_analyzer.py (lines 30, 65-66, 163-164), so a dict missing a key
is the record holding that default. -/
structure LeagueConfig where
  scoring_type : String := "h2h_categories"
  categories : List String := []
  points_values : List (String × ℚ) := []
  games_per_week : ℚ := 333/100
  deriving DecidableEq

/-- `generate_category_strategies` (dbb2_opponent_analyzer.py lines 84-143). -/
def generate_category_strategies (matchup : H2HCatResult) : List String :=
  let close_losing := matchup.close_categories.filter (fun c => c.status = "loss")
  let s1 : List String :=
    if close_losing ≠ [] then
      ["🎯 Focus on close categories you\x27re losing: " ++
        String.intercalate ", " (close_losing.map (fun c => c.category))]
    else []
  let close_winning := matchup.close_categories.filter (fun c => c.status = "win")
  let s2 : List String :=
    if close_winning ≠ [] then
      ["🛡️ Protect narrow leads in: " ++
        String.intercalate ", " (close_winning.map (fun c => c.category))]
    else []
  let blowout_losses := matchup.blowout_categories.filter (fun c => c.status = "loss")
  let s3 : List String :=
    if blowout_losses ≠ [] then
      ["❌ Consider punting (giving up) categories: " ++
        String.intercalate ", " (blowout_losses.map (fun c => c.category))]
    else []
  let blowout_wins := matchup.blowout_categories.filter (fun c => c.status = "win")
  let s4 : List String :=
    if blowout_wins ≠ [] then
      ["✅ Dominating in: " ++
        String.intercalate ", " (blowout_wins.map (fun c => c.category)) ++
        " - maintain lead"]
    else []
  let win_prob := matchup.winning_probability
  let s5 : List String :=
    if win_prob ≥ 70 then ["💪 Strong advantage - focus on consistency, avoid risky moves"]
    else if win_prob ≥ 55 then ["📊 Slight advantage - target close categories to secure win"]
    else if win_prob ≥ 45 then ["⚖️ Very close matchup - every category matters"]
    else if win_prob ≥ 30 then ["📈 Need to gain ground - target multiple close categories"]
    else ["🔥 Significant deficit - consider aggressive streaming for close cats"]
  let s6 : List String :=
    if matchup.close_categories ≠ [] then
      ["📊 Consider streaming players strong in your close categories"]
    else []
  s1 ++ s2 ++ s3 ++ s4 ++ s5 ++ s6

/-- `generate_points_strategies` (dbb2_opponent_analyzer.py lines 216-263).
`diff_percent` divides by `max(my_points, opponent_points)`, so when that
maximum is exactly 0 the source raises `ZeroDivisionError`: `none` here. -/
def generate_points_strategies (my_points opponent_points point_diff : ℚ) :
    Option (List String) :=
  if max my_points opponent_points = 0 then none
  else
    let diff_percent := |point_diff| / max my_points opponent_points * 100
    let body :=
      if point_diff > 0 then
        if diff_percent ≥ 20 then
          ["✅ Large lead - focus on maintaining consistency",
           "🛡️ Avoid risky adds, play it safe"]
        else if diff_percent ≥ 10 then
          ["📊 Solid lead - maintain your advantage",
           "👀 Monitor opponent\x27s moves"]
        else
          ["⚠️ Close lead - stay aggressive",
           "🎯 Look for high-upside streaming options"]
      else
        if diff_percent ≥ 20 then
          ["🔥 Significant deficit - need aggressive moves",
           "📈 Target high-ceiling players on waiver wire",
           "🎲 Consider risky but high-upside adds"]
        else if diff_percent ≥ 10 then
          ["📊 Behind but catchable - be strategic",
           "🎯 Focus on players with heavy schedules"]
        else
          ["⚖️ Very close - every move matters",
           "👀 Monitor daily adds/drops closely"]
    some (body ++ ["💡 Consider players with 4+ games this week"])

/-- The `matchup_analysis` record of `analyze_h2h_points_matchup`
(dbb2_opponent_analyzer.py lines 202-213). -/
structure PointsMatchupAnalysis where
  matchup_result : String
  my_points : ℚ
  opponent_points : ℚ
  point_difference : ℚ
  winning_probability : ℚ
  my_top_performers : List PlayerPointsEntry
  opponent_top_performers : List PlayerPointsEntry
  strategy_recommendations : List String
  deriving DecidableEq

/-- `analyze_h2h_points_matchup` (dbb2_opponent_analyzer.py lines 146-213).
`none` models the `ZeroDivisionError`s: dividing by a zero `opponent_points`
in the winning branch, by a zero `my_points` in the losing branch, and by a
zero `max(my_points, opponent_points)` in the strategy text. -/
def analyze_h2h_points_matchup (my_projections opponent_projections : List PlayerProjection)
    (league_config : LeagueConfig) : Option PointsMatchupAnalysis :=
  let my_results := calculate_h2h_points my_projections
    league_config.points_values league_config.games_per_week
  let opponent_results := calculate_h2h_points opponent_projections
    league_config.points_values league_config.games_per_week
  let my_points := my_results.total_fantasy_points
  let opponent_points := opponent_results.total_fantasy_points
  let point_diff := my_points - opponent_points
  let outcome : Option (String × ℚ) :=
    if my_points > opponent_points then
      if opponent_points = 0 then none
      else some ("win", min 95 (50 + point_diff / opponent_points * 100))
    else if my_points < opponent_points then
      if my_points = 0 then none
      else some ("loss", max 5 (50 - |point_diff| / my_points * 100))
    else some ("tie", 50)
  match outcome with
  | none => none
  | some (matchup_result, win_prob) =>
    match generate_points_strategies my_points opponent_points point_diff with
    | none => none
    | some strategies => some
      { matchup_result := matchup_result
        my_points := my_points
        opponent_points := opponent_points
        point_difference := pyRound 1 point_diff
        winning_probability := pyRound 1 win_prob
        my_top_performers := my_results.player_breakdown.take 5
        opponent_top_performers := opponent_results.player_breakdown.take 5
        strategy_recommendations := strategies }

/-- The record returned by `analyze_h2h_matchup`: one of the two matchup
analyses, or the structured error payload of the dispatch
(dbb2_opponent_analyzer.py line 45). -/
inductive MatchupOutcome where
  | categoriesAnalysis (matchup : H2HCatResult) (strategy_recommendations : List String)
  | pointsAnalysis (analysis : PointsMatchupAnalysis)
  | errorPayload (msg : String)
  deriving DecidableEq

/-- `analyze_h2h_matchup` (dbb2_opponent_analyzer.py lines 13-45): dispatch on
`scoring_type`; unsupported types get the error payload; `none` models a
raised `ZeroDivisionError` inside the chosen branch. -/
def analyze_h2h_matchup (my_projections opponent_projections : List PlayerProjection)
    (league_config : LeagueConfig) : Option MatchupOutcome :=
  if league_config.scoring_type = "h2h_categories" then
    (calculate_h2h_categories my_projections opponent_projections
        league_config.categories league_config.games_per_week).map
      (fun m => .categoriesAnalysis m (generate_category_strategies m))
  else if league_config.scoring_type = "h2h_points" then
    (analyze_h2h_points_matchup my_projections opponent_projections league_config).map
      (fun a => .pointsAnalysis a)
  else some (.errorPayload "Unsupported scoring type for matchup analysis")

/-! ### Helper lemmas -/

lemma roundHalfEven_eq_floor_or (q : ℚ) :
    roundHalfEven q = ⌊q⌋ ∨ roundHalfEven q = ⌊q⌋ + 1 := by
  unfold roundHalfEven
  dsimp only
  split_ifs <;> simp

lemma floor_le_roundHalfEven (q : ℚ) : ⌊q⌋ ≤ roundHalfEven q := by
  rcases roundHalfEven_eq_floor_or q with h | h <;> omega

lemma roundHalfEven_nonneg {q : ℚ} (h : 0 ≤ q) : 0 ≤ roundHalfEven q :=
  le_trans (Int.floor_nonneg.mpr h) (floor_le_roundHalfEven q)

lemma roundHalfEven_le_intCast {q : ℚ} {n : ℤ} (h : q ≤ (n : ℚ)) :
    roundHalfEven q ≤ n := by
  have hfl : ⌊q⌋ ≤ n := by
    have := Int.floor_le_floor h
    rwa [Int.floor_intCast] at this
  have key : ∀ hr : ¬ (q - (⌊q⌋ : ℚ) < 1/2), ⌊q⌋ + 1 ≤ n := by
    intro hr
    rcases lt_or_eq_of_le hfl with hlt | heq
    · omega
    · exfalso
      have : q - ((⌊q⌋ : ℤ) : ℚ) ≤ 0 := by
        rw [heq]
        linarith
      linarith [not_lt.mp hr]
  unfold roundHalfEven
  dsimp only
  split_ifs with h1 h2 h3
  · exact hfl
  · exact key h1
  · exact hfl
  · exact key h1

lemma pyRound_nonneg {nd : ℕ} {q : ℚ} (h : 0 ≤ q) : 0 ≤ pyRound nd q := by
  unfold pyRound
  have h10 : (0 : ℚ) < 10 ^ nd := by positivity
  have : (0 : ℤ) ≤ roundHalfEven (q * 10 ^ nd) :=
    roundHalfEven_nonneg (by positivity)
  positivity

lemma pyRound_le_intCast {nd : ℕ} {q : ℚ} {n : ℤ} (h : q ≤ (n : ℚ)) :
    pyRound nd q ≤ (n : ℚ) := by
  unfold pyRound
  have h10 : (0 : ℚ) < 10 ^ nd := by positivity
  have hb : q * 10 ^ nd ≤ ((n * 10 ^ nd : ℤ) : ℚ) := by
    push_cast
    have := mul_le_mul_of_nonneg_right h (le_of_lt h10)
    linarith
  have := roundHalfEven_le_intCast hb
  rw [div_le_iff₀ h10]
  calc ((roundHalfEven (q * 10 ^ nd) : ℤ) : ℚ) ≤ ((n * 10 ^ nd : ℤ) : ℚ) := by
        exact_mod_cast this
    _ = (n : ℚ) * 10 ^ nd := by push_cast; ring

lemma insertDesc_perm {α : Type} (key : α → ℚ) (p : α) (l : List α) :
    (insertDesc key p l).Perm (p :: l) := by
  induction l with
  | nil => simp [insertDesc]
  | cons q rest ih =>
    unfold insertDesc
    split_ifs
    · exact ((ih.cons q).trans (List.Perm.swap p q rest))
    · exact List.Perm.refl _

lemma sortDesc_perm {α : Type} (key : α → ℚ) (l : List α) :
    (sortDesc key l).Perm l := by
  induction l with
  | nil => simp [sortDesc]
  | cons p rest ih =>
    exact (insertDesc_perm key p (sortDesc key rest)).trans (ih.cons p)

lemma insertAsc_perm {α : Type} (key : α → ℚ) (p : α) (l : List α) :
    (insertAsc key p l).Perm (p :: l) := by
  induction l with
  | nil => simp [insertAsc]
  | cons q rest ih =>
    unfold insertAsc
    split_ifs
    · exact ((ih.cons q).trans (List.Perm.swap p q rest))
    · exact List.Perm.refl _

lemma sortAsc_perm {α : Type} (key : α → ℚ) (l : List α) :
    (sortAsc key l).Perm l := by
  induction l with
  | nil => simp [sortAsc]
  | cons p rest ih =>
    exact (insertAsc_perm key p (sortAsc key rest)).trans (ih.cons p)

/-! ### C6: trade recommendation thresholds -/

/-- C6: for every `value_change` the verdict and confidence of
`generate_trade_recommendation` follow the threshold table — above 20
ACCEPT/Strong, above 10 ACCEPT/Moderate, above 0 CONSIDER/Low, above −10
CONSIDER/Low, above −20 DECLINE/Moderate, otherwise DECLINE/Strong — for any
category impact; in particular `value_change = 25` yields ACCEPT with Strong
confidence. -/
theorem generate_trade_recommendation_table (v : ℚ)
    (impact : List (String × CategoryImpact)) :
    (20 < v →
      (generate_trade_recommendation v impact).verdict = "ACCEPT" ∧
      (generate_trade_recommendation v impact).confidence = "Strong") ∧
    (10 < v → v ≤ 20 →
      (generate_trade_recommendation v impact).verdict = "ACCEPT" ∧
      (generate_trade_recommendation v impact).confidence = "Moderate") ∧
    (0 < v → v ≤ 10 →
      (generate_trade_recommendation v impact).verdict = "CONSIDER" ∧
      (generate_trade_recommendation v impact).confidence = "Low") ∧
    (-10 < v → v ≤ 0 →
      (generate_trade_recommendation v impact).verdict = "CONSIDER" ∧
      (generate_trade_recommendation v impact).confidence = "Low") ∧
    (-20 < v → v ≤ -10 →
      (generate_trade_recommendation v impact).verdict = "DECLINE" ∧
      (generate_trade_recommendation v impact).confidence = "Moderate") ∧
    (v ≤ -20 →
      (generate_trade_recommendation v impact).verdict = "DECLINE" ∧
      (generate_trade_recommendation v impact).confidence = "Strong") ∧
    ((generate_trade_recommendation 25 impact).verdict = "ACCEPT" ∧
      (generate_trade_recommendation 25 impact).confidence = "Strong") := by
  unfold generate_trade_recommendation
  dsimp only
  refine ⟨?_, ?_, ?_, ?_, ?_, ?_, ?_⟩ <;>
    first
    | · intro h1
        split_ifs <;> first | exact ⟨rfl, rfl⟩ | (exfalso; linarith)
    | · intro h1 h2
        split_ifs <;> first | exact ⟨rfl, rfl⟩ | (exfalso; linarith)
    | · split_ifs <;> first | exact ⟨rfl, rfl⟩ | (exfalso; linarith)

/-- Witness for C6 at `value_change = 25`. -/
theorem generate_trade_recommendation_table_witness :
    (20 : ℚ) < 25 ∧
    (generate_trade_recommendation 25 []).verdict = "ACCEPT" ∧
    (generate_trade_recommendation 25 []).confidence = "Strong" :=
  ⟨by norm_num, (generate_trade_recommendation_table 25 []).1 (by norm_num)⟩

/-! ### C7: trade letter rating monotone -/

/-- The twelve (threshold, grade) bands of `calculate_trade_rating`, highest
first; `lookupGrade` walks them exactly as the source's `elif` chain does. -/
def gradeTable : List (ℚ × String) :=
  [(15, "A+"), (10, "A"), (7, "A-"), (5, "B+"), (3, "B"), (1, "B-"), (-1, "C+"),
   (-3, "C"), (-5, "C-"), (-7, "D+"), (-10, "D"), (-15, "D-")]

/-- Generic threshold-chain lookup: the first band whose threshold the value
reaches wins, `F` when none does. -/
def lookupGrade : List (ℚ × String) → ℚ → String
  | [], _ => "F"
  | (t, g) :: rest, x => if x ≥ t then g else lookupGrade rest x

lemma calculate_trade_rating_eq_lookup (vc x : ℚ) :
    calculate_trade_rating vc x = lookupGrade gradeTable x := rfl

lemma gradeRank_lookupGrade_le {tbl : List (ℚ × String)} {r : ℕ} (x : ℚ)
    (hb : ∀ p ∈ tbl, gradeRank p.2 ≤ r) (hF : gradeRank "F" ≤ r) :
    gradeRank (lookupGrade tbl x) ≤ r := by
  induction tbl with
  | nil => exact hF
  | cons p rest ih =>
    obtain ⟨t, g⟩ := p
    unfold lookupGrade
    split_ifs
    · exact hb (t, g) (List.mem_cons_self _ _)
    · exact ih (fun q hq => hb q (List.mem_cons_of_mem _ hq))

lemma gradeRank_lookupGrade_mono {tbl : List (ℚ × String)} {x y : ℚ} (hxy : x ≤ y)
    (hp : tbl.Pairwise (fun a b => gradeRank b.2 ≤ gradeRank a.2)) :
    gradeRank (lookupGrade tbl x) ≤ gradeRank (lookupGrade tbl y) := by
  induction tbl with
  | nil => exact le_refl _
  | cons p rest ih =>
    obtain ⟨t, g⟩ := p
    rw [List.pairwise_cons] at hp
    by_cases hy : y ≥ t
    · rw [show lookupGrade ((t, g) :: rest) y = g from if_pos hy]
      by_cases hx : x ≥ t
      · rw [show lookupGrade ((t, g) :: rest) x = g from if_pos hx]
      · rw [show lookupGrade ((t, g) :: rest) x = lookupGrade rest x from if_neg hx]
        exact gradeRank_lookupGrade_le x (fun q hq => hp.1 q hq) (Nat.zero_le _)
    · have hx : ¬ x ≥ t := fun h => hy (le_trans h hxy)
      rw [show lookupGrade ((t, g) :: rest) x = lookupGrade rest x from if_neg hx,
        show lookupGrade ((t, g) :: rest) y = lookupGrade rest y from if_neg hy]
      exact ih hp.2

lemma gradeTable_ranks_sorted :
    gradeTable.Pairwise (fun a b => gradeRank b.2 ≤ gradeRank a.2) := by
  decide

/-- C7: the letter grade of `calculate_trade_rating` is monotone
non-decreasing in `percent_change` on the scale F < D- < D < D+ < C- < C <
C+ < B- < B < B+ < A- < A < A+, and the boundary values land on the
documented side: exactly 15 rates A+ and exactly −1 rates C+. -/
theorem calculate_trade_rating_monotone (vc x y : ℚ) (hxy : x ≤ y) :
    gradeRank (calculate_trade_rating vc x) ≤ gradeRank (calculate_trade_rating vc y) ∧
    calculate_trade_rating vc 15 = "A+" ∧
    calculate_trade_rating vc (-1) = "C+" := by
  refine ⟨?_, ?_, ?_⟩
  · rw [calculate_trade_rating_eq_lookup, calculate_trade_rating_eq_lookup]
    exact gradeRank_lookupGrade_mono hxy gradeTable_ranks_sorted
  · unfold calculate_trade_rating
    norm_num
  · unfold calculate_trade_rating
    norm_num

/-- Witness for C7 at `x = 0`, `y = 20`. -/
theorem calculate_trade_rating_monotone_witness :
    (0 : ℚ) ≤ 20 ∧
    (gradeRank (calculate_trade_rating 0 0) ≤ gradeRank (calculate_trade_rating 0 20) ∧
      calculate_trade_rating 0 15 = "A+" ∧
      calculate_trade_rating 0 (-1) = "C+") :=
  ⟨by norm_num, calculate_trade_rating_monotone 0 0 20 (by norm_num)⟩

/-! ### C9: hotness score -/

/-- C9: `calculate_hotness_score` is the capped minutes score plus the capped
points score plus 6 per versatility threshold met; it never exceeds 100, and
for non-negative stats it is non-negative, hence lies in [0, 100]. -/
theorem calculate_hotness_score_bounds (p : PlayerProjection) :
    calculate_hotness_score p =
      min (p.minutes_per_game / 35 * 40) 40 + min (p.points_per_game / 25 * 30) 30 +
        6 * (hotnessCategoriesFilled p : ℚ) ∧
    calculate_hotness_score p ≤ 100 ∧
    (0 ≤ p.minutes_per_game → 0 ≤ p.points_per_game →
      0 ≤ calculate_hotness_score p) := by
  have hfilled : hotnessCategoriesFilled p ≤ 5 := by
    unfold hotnessCategoriesFilled
    split_ifs <;> norm_num
  have hfilledQ : (hotnessCategoriesFilled p : ℚ) ≤ 5 := by exact_mod_cast hfilled
  refine ⟨by unfold calculate_hotness_score; ring, ?_, ?_⟩
  · unfold calculate_hotness_score
    dsimp only
    have h1 : min (p.minutes_per_game / 35 * 40) 40 ≤ 40 := min_le_right _ _
    have h2 : min (p.points_per_game / 25 * 30) 30 ≤ 30 := min_le_right _ _
    linarith
  · intro hm hp
    unfold calculate_hotness_score
    dsimp only
    have h1 : (0 : ℚ) ≤ min (p.minutes_per_game / 35 * 40) 40 :=
      le_min (by positivity) (by norm_num)
    have h2 : (0 : ℚ) ≤ min (p.points_per_game / 25 * 30) 30 :=
      le_min (by positivity) (by norm_num)
    have h3 : (0 : ℚ) ≤ (hotnessCategoriesFilled p : ℚ) * 6 := by positivity
    linarith

/-- Witness for C9 at a concrete player with non-negative stats. -/
theorem calculate_hotness_score_bounds_witness :
    calculate_hotness_score
        { minutes_per_game := 40, points_per_game := 30, rebounds_per_game := 6,
          assists_per_game := 5, steals_per_game := 2, blocks_per_game := 1,
          three_pointers_made := 3 } ≤ 100 ∧
    0 ≤ calculate_hotness_score
        { minutes_per_game := 40, points_per_game := 30, rebounds_per_game := 6,
          assists_per_game := 5, steals_per_game := 2, blocks_per_game := 1,
          three_pointers_made := 3 } :=
  ⟨(calculate_hotness_score_bounds _).2.1,
    (calculate_hotness_score_bounds _).2.2 (by norm_num) (by norm_num)⟩

lemma roundHalfEven_intCast (n : ℤ) : roundHalfEven (n : ℚ) = n := by
  unfold roundHalfEven
  dsimp only
  rw [Int.floor_intCast]
  norm_num

lemma pyRound_ofInt (nd : ℕ) (q : ℚ) (n : ℤ) (h : q * 10 ^ nd = (n : ℚ)) :
    pyRound nd q = (n : ℚ) / 10 ^ nd := by
  unfold pyRound
  rw [h, roundHalfEven_intCast]

/-! ### C1: ratio categories aggregate as ratio of sums -/

lemma pctKeyMapping_endsWith {cat : String} {mkak : String × String}
    (h : pctKeyMapping cat = some mkak) : strEndsWith cat "_PCT" = true := by
  unfold pctKeyMapping at h
  split_ifs at h with h1 h2 h3 h4
  · subst h1; decide
  · subst h2; decide
  · subst h3; decide
  · subst h4; decide

/-- Two demonstration players with differing attempt counts: 1-of-2 and
9-of-10 from the field. -/
def demoLowVolume : PlayerProjection :=
  { field_goals_made := 1, field_goals_attempted := 2 }

/-- See `demoLowVolume`. -/
def demoHighVolume : PlayerProjection :=
  { field_goals_made := 9, field_goals_attempted := 10 }

lemma ratio_sum_general (projections : List PlayerProjection) (g : ℚ)
    (cat mk ak : String) (hmap : pctKeyMapping cat = some (mk, ak)) (hg : 0 < g) :
    (0 < (projections.map (fun p => projGet p ak)).sum →
      calculate_category_total projections cat g =
        (projections.map (fun p => projGet p mk)).sum /
          (projections.map (fun p => projGet p ak)).sum) ∧
    ((projections.map (fun p => projGet p ak)).sum = 0 →
      calculate_category_total projections cat g = 0) ∧
    (rotoCategoryTotal projections cat g).1 = calculate_category_total projections cat g := by
  have hend := pctKeyMapping_endsWith hmap
  have hM : (projections.map (fun p => projGet p mk * g)).sum =
      (projections.map (fun p => projGet p mk)).sum * g :=
    List.sum_map_mul_right projections (fun p => projGet p mk) g
  have hA : (projections.map (fun p => projGet p ak * g)).sum =
      (projections.map (fun p => projGet p ak)).sum * g :=
    List.sum_map_mul_right projections (fun p => projGet p ak) g
  refine ⟨?_, ?_, ?_⟩
  · intro hpos
    simp only [calculate_category_total, hend, hmap, if_true, hM, hA]
    have hApos : 0 < (projections.map (fun p => projGet p ak)).sum * g :=
      mul_pos hpos hg
    rw [if_pos hApos]
    exact mul_div_mul_right _ _ (ne_of_gt hg)
  · intro hzero
    simp only [calculate_category_total, hend, hmap, if_true, hM, hA, hzero, zero_mul]
    norm_num
  · simp only [calculate_category_total, rotoCategoryTotal, hend, hmap, if_true]

lemma demo_attempts_sum :
    ([demoLowVolume, demoHighVolume].map (fun p => projGet p "field_goals_attempted")).sum
      = 12 := by
  simp [projGet, demoLowVolume, demoHighVolume]
  norm_num

lemma demo_makes_sum :
    ([demoLowVolume, demoHighVolume].map (fun p => projGet p "field_goals_made")).sum
      = 10 := by
  simp [projGet, demoLowVolume, demoHighVolume]
  norm_num

/-- C1: for every projection list, every ratio category known to the mapping
and every positive `games_per_week`, the aggregate of
`calculate_category_total` is the ratio of the summed makes to the summed
attempts when the summed attempts are positive and 0 when they are 0; the
percentage branch of `calculate_roto_score` computes the same value; and on
the two demonstration players the ratio of sums (5/6) differs from the mean
of the individual percentages (7/10). -/
theorem ratio_category_aggregation :
    (∀ (projections : List PlayerProjection) (g : ℚ) (cat mk ak : String),
      pctKeyMapping cat = some (mk, ak) → 0 < g →
      (0 < (projections.map (fun p => projGet p ak)).sum →
        calculate_category_total projections cat g =
          (projections.map (fun p => projGet p mk)).sum /
            (projections.map (fun p => projGet p ak)).sum) ∧
      ((projections.map (fun p => projGet p ak)).sum = 0 →
        calculate_category_total projections cat g = 0) ∧
      (rotoCategoryTotal projections cat g).1 = calculate_category_total projections cat g) ∧
    calculate_category_total [demoLowVolume, demoHighVolume] "FG_PCT" 1 = 5/6 ∧
    meanOfIndividualPct [demoLowVolume, demoHighVolume]
      "field_goals_made" "field_goals_attempted" = 7/10 ∧
    (5/6 : ℚ) ≠ 7/10 := by
  refine ⟨ratio_sum_general, ?_, ?_, by norm_num⟩
  · have h := (ratio_sum_general [demoLowVolume, demoHighVolume] 1 "FG_PCT"
      "field_goals_made" "field_goals_attempted" rfl one_pos).1
      (by rw [demo_attempts_sum]; norm_num)
    rw [h, demo_attempts_sum, demo_makes_sum]
    norm_num
  · unfold meanOfIndividualPct
    simp [projGet, demoLowVolume, demoHighVolume]
    norm_num

/-- Witness for C1 on the two demonstration players with
`games_per_week = 1`. -/
theorem ratio_category_aggregation_witness :
    (0 : ℚ) <
      ([demoLowVolume, demoHighVolume].map
        (fun p => projGet p "field_goals_attempted")).sum ∧
    calculate_category_total [demoLowVolume, demoHighVolume] "FG_PCT" 1 =
      ([demoLowVolume, demoHighVolume].map (fun p => projGet p "field_goals_made")).sum /
        ([demoLowVolume, demoHighVolume].map
          (fun p => projGet p "field_goals_attempted")).sum := by
  have hpos : (0 : ℚ) <
      ([demoLowVolume, demoHighVolume].map
        (fun p => projGet p "field_goals_attempted")).sum := by
    rw [demo_attempts_sum]; norm_num
  exact ⟨hpos,
    (ratio_category_aggregation.1 [demoLowVolume, demoHighVolume] 1
        "FG_PCT" _ _ rfl (by norm_num)).1 hpos⟩

def exampleRotoPlayer : PlayerProjection :=
  { points_per_game := 20, field_goals_made := 8, field_goals_attempted := 16 }

def exampleRotoTargets : String → ℚ := fun c => if c = "PTS" then 50 else 0

lemma exampleRoto_PTS_entry :
    rotoCatEntry [exampleRotoPlayer] exampleRotoTargets 3 "PTS" =
      { target := 50, actual := 60, gap := -10, percentage_complete := 120,
        makes := none, attempts := none, status := "ahead" } := by
  have hend : strEndsWith "PTS" "_PCT" = false := by decide
  unfold rotoCatEntry rotoCategoryTotal
  simp [hend, exampleRotoTargets, exampleRotoPlayer, rotoCountingKey, countingKey, projGet]
  refine ⟨?_, ?_, ?_, ?_⟩
  · rw [show (20 * 3 : ℚ) = 60 by norm_num, pyRound_ofInt 2 60 6000 (by norm_num)]
    norm_num
  · rw [show (50 - 20 * 3 : ℚ) = -10 by norm_num,
      pyRound_ofInt 2 (-10) (-1000) (by norm_num)]
    norm_num
  · rw [show (20 * 3 / 50 * 100 : ℚ) = 120 by norm_num,
      pyRound_ofInt 1 120 1200 (by norm_num)]
    norm_num
  · intro h
    norm_num at h

lemma exampleRoto_FG_entry :
    rotoCatEntry [exampleRotoPlayer] exampleRotoTargets 3 "FG_PCT" =
      { target := 0, actual := 1/2, gap := -(1/2), percentage_complete := 0,
        makes := some 24, attempts := some 48, status := "ahead" } := by
  have hend : strEndsWith "FG_PCT" "_PCT" = true := by decide
  unfold rotoCatEntry rotoCategoryTotal
  simp [hend, exampleRotoTargets, exampleRotoPlayer, pctKeyMapping, projGet]
  refine ⟨?_, ?_, ?_, ?_, ?_, ?_⟩
  · rw [show (8 * 3 / (16 * 3) : ℚ) = 1/2 by norm_num,
      pyRound_ofInt 2 (1/2) 50 (by norm_num)]
    norm_num
  · rw [show (-(8 * 3 / (16 * 3)) : ℚ) = -(1/2) by norm_num,
      pyRound_ofInt 2 (-(1/2)) (-50) (by norm_num)]
    norm_num
  · rw [pyRound_ofInt 1 0 0 (by norm_num)]
    norm_num
  · rw [show (8 * 3 : ℚ) = 24 by norm_num, pyRound_ofInt 1 24 240 (by norm_num)]
    norm_num
  · rw [show (16 * 3 : ℚ) = 48 by norm_num, pyRound_ofInt 1 48 480 (by norm_num)]
    norm_num
  · intro h
    norm_num at h

/-- C5: every entry of `calculate_roto_score` derives its status from the
unrounded actual and gap — for `TO`: ahead when actual ≤ target, on-track
when gap < 5, else behind; otherwise: ahead when actual ≥ target, on-track
when gap ≤ 0.1 × target, else behind — and the spec example (one player,
`games_per_week = 3`, PTS target 50) yields actual 60, gap −10, status
ahead, with the untargeted FG_PCT ratio at 1/2. -/
theorem calculate_roto_score_status (projections : List PlayerProjection)
    (categories : List String) (weekly_targets : String → ℚ) (g : ℚ) :
    (∀ e ∈ (calculate_roto_score projections categories weekly_targets g).category_results,
      e.2.status =
        (if e.1 = "TO" then
          if (rotoCategoryTotal projections e.1 g).1 ≤ weekly_targets e.1 then "ahead"
          else if weekly_targets e.1 - (rotoCategoryTotal projections e.1 g).1 < 5 then
            "on_track"
          else "behind"
        else
          if (rotoCategoryTotal projections e.1 g).1 ≥ weekly_targets e.1 then "ahead"
          else if weekly_targets e.1 - (rotoCategoryTotal projections e.1 g).1 ≤
              (1/10) * weekly_targets e.1 then "on_track"
          else "behind")) ∧
    ((calculate_roto_score [exampleRotoPlayer] ["PTS", "FG_PCT"]
        exampleRotoTargets 3).category_results.map
          (fun e => (e.1, e.2.actual, e.2.gap, e.2.status))) =
      [("PTS", (60 : ℚ), (-10 : ℚ), "ahead"), ("FG_PCT", 1/2, -(1/2), "ahead")] := by
  constructor
  · intro e he
    simp only [calculate_roto_score, List.mem_map] at he
    obtain ⟨c, hc, rfl⟩ := he
    simp only [rotoCatEntry]
    rw [mul_comm ((1 : ℚ)/10) (weekly_targets c)]
  · simp only [calculate_roto_score, List.map_cons, List.map_nil,
      exampleRoto_PTS_entry, exampleRoto_FG_entry]

/-- Witness for C5: the PTS entry of the example scenario is in the result
and the status rule evaluates to ahead there. -/
theorem calculate_roto_score_status_witness :
    (("PTS", rotoCatEntry [exampleRotoPlayer] exampleRotoTargets 3 "PTS") ∈
      (calculate_roto_score [exampleRotoPlayer] ["PTS", "FG_PCT"]
        exampleRotoTargets 3).category_results) ∧
    (rotoCatEntry [exampleRotoPlayer] exampleRotoTargets 3 "PTS").status = "ahead" := by
  have hmem : ("PTS", rotoCatEntry [exampleRotoPlayer] exampleRotoTargets 3 "PTS") ∈
      (calculate_roto_score [exampleRotoPlayer] ["PTS", "FG_PCT"]
        exampleRotoTargets 3).category_results := by
    simp [calculate_roto_score]
  refine ⟨hmem, ?_⟩
  have h := (calculate_roto_score_status [exampleRotoPlayer] ["PTS", "FG_PCT"]
    exampleRotoTargets 3).1 _ hmem
  rw [h]
  have hend : strEndsWith "PTS" "_PCT" = false := by decide
  unfold rotoCategoryTotal
  simp [hend, exampleRotoTargets, exampleRotoPlayer, rotoCountingKey, countingKey, projGet]
  norm_num

/-! ### C10: h2h categories partition invariants -/

lemma h2hCatEntry_status_cases (my opp : List PlayerProjection) (g : ℚ) (c : String) :
    (h2hCatEntry my opp g c).status = "win" ∨ (h2hCatEntry my opp g c).status = "loss" ∨
      (h2hCatEntry my opp g c).status = "tie" := by
  unfold h2hCatEntry
  dsimp only
  split_ifs <;> simp

lemma statuses_partition (l : List H2HCatEntry)
    (hl : ∀ e ∈ l, e.status = "win" ∨ e.status = "loss" ∨ e.status = "tie") :
    (l.filter (fun c => c.status = "win")).length +
      (l.filter (fun c => c.status = "loss")).length +
      (l.filter (fun c => c.status = "tie")).length = l.length := by
  induction l with
  | nil => simp
  | cons e t ih =>
    have ht := ih (fun x hx => hl x (List.mem_cons_of_mem e hx))
    rcases hl e (List.mem_cons_self e t) with h | h | h <;>
      simp [List.filter_cons, h] <;> omega

/-- C10: with a non-empty category list, `calculate_h2h_categories` returns a
record whose wins, losses and ties sum to the number of categories, whose
won/lost lists have lengths wins/losses, and whose breakdown lists the input
categories in order, one entry each. -/
theorem calculate_h2h_categories_partition (my opp : List PlayerProjection)
    (cats : List String) (g : ℚ) (h : cats ≠ []) :
    ∃ r, calculate_h2h_categories my opp cats g = some r ∧
      r.wins + r.losses + r.ties = cats.length ∧
      r.categories_won.length = r.wins ∧
      r.categories_lost.length = r.losses ∧
      r.category_breakdown.map (fun e => e.category) = cats := by
  have hlen : cats.length ≠ 0 := fun h0 => h (List.length_eq_zero.mp h0)
  unfold calculate_h2h_categories
  rw [if_neg hlen]
  refine ⟨_, rfl, ?_, ?_, ?_, ?_⟩
  · dsimp only
    rw [statuses_partition _ ?_, List.length_map]
    intro e he
    obtain ⟨c, _, rfl⟩ := List.mem_map.mp he
    exact h2hCatEntry_status_cases my opp g c
  · dsimp only
    rw [List.length_map]
  · dsimp only
    rw [List.length_map]
  · dsimp only
    rw [List.map_map]
    exact List.map_id cats

/-- Witness for C10 on a one-category matchup of empty rosters. -/
theorem calculate_h2h_categories_partition_witness :
    ∃ r, calculate_h2h_categories [] [] ["PTS"] 1 = some r ∧
      r.wins + r.losses + r.ties = (["PTS"] : List String).length ∧
      r.categories_won.length = r.wins ∧
      r.categories_lost.length = r.losses ∧
      r.category_breakdown.map (fun e => e.category) = ["PTS"] :=
  calculate_h2h_categories_partition [] [] ["PTS"] 1 (by simp)

/-! ### C3: winning probability -/

/-- My demonstration roster for the h2h counterexample: one pure scorer. -/
def demoPointsOnly : PlayerProjection := { player_id := 1, points_per_game := 10 }

/-- Opposing demonstration roster: rebounds and assists, no points. -/
def demoRebAst : PlayerProjection :=
  { player_id := 2, rebounds_per_game := 5, assists_per_game := 5 }

lemma demo_entry_PTS :
    (h2hCatEntry [demoPointsOnly] [demoRebAst] 1 "PTS").status = "win" := by
  have hend : strEndsWith "PTS" "_PCT" = false := by decide
  unfold h2hCatEntry calculate_category_total
  simp [hend, countingKey, projGet, demoPointsOnly, demoRebAst]

lemma demo_entry_REB :
    (h2hCatEntry [demoPointsOnly] [demoRebAst] 1 "REB").status = "loss" := by
  have hend : strEndsWith "REB" "_PCT" = false := by decide
  unfold h2hCatEntry calculate_category_total
  simp [hend, countingKey, projGet, demoPointsOnly, demoRebAst]

lemma demo_entry_AST :
    (h2hCatEntry [demoPointsOnly] [demoRebAst] 1 "AST").status = "loss" := by
  have hend : strEndsWith "AST" "_PCT" = false := by decide
  unfold h2hCatEntry calculate_category_total
  simp [hend, countingKey, projGet, demoPointsOnly, demoRebAst]

/-- Counterexample to C3: the source rounds `wins / len(categories) * 100` to
one decimal, so with one win in three categories the returned probability is
33.3, not exactly 100 × 1/3; and on an empty category list the function
raises `ZeroDivisionError` instead of returning a record. -/
theorem calculate_h2h_categories_probability_cex :
    ((calculate_h2h_categories [demoPointsOnly] [demoRebAst] ["PTS", "REB", "AST"] 1).map
        (fun r => r.winning_probability)) = some (333/10) ∧
    ((calculate_h2h_categories [demoPointsOnly] [demoRebAst] ["PTS", "REB", "AST"] 1).map
        (fun r => r.wins)) = some 1 ∧
    (333/10 : ℚ) ≠ 100 * 1 / 3 ∧
    calculate_h2h_categories [] [] [] 1 = none := by
  have hwp : pyRound 1 ((3 : ℚ)⁻¹ * 100) = 333/10 := by
    unfold pyRound
    have hf : ⌊((3 : ℚ)⁻¹ * 100 * 10 ^ 1 : ℚ)⌋ = 333 := by norm_num [Int.floor_eq_iff]
    unfold roundHalfEven
    dsimp only
    rw [hf]
    norm_num
  refine ⟨?_, ?_, by norm_num, by simp [calculate_h2h_categories]⟩ <;>
  · unfold calculate_h2h_categories
    rw [if_neg (by norm_num)]
    simp only [List.map_cons, List.map_nil, Option.map_some]
    simp [List.filter_cons, demo_entry_PTS, demo_entry_REB, demo_entry_AST, hwp]

/-- C3 as amended: for every non-empty category list the function returns a
record whose winning probability is the one-decimal rounding of
`100 × wins / |categories|` and lies in [0, 100]; the unrounded value and the
empty-list behavior are as the counterexample shows. -/
theorem calculate_h2h_categories_winning_probability (my opp : List PlayerProjection)
    (cats : List String) (g : ℚ) (h : cats ≠ []) :
    ∃ r, calculate_h2h_categories my opp cats g = some r ∧
      r.winning_probability = pyRound 1 ((r.wins : ℚ) / (cats.length : ℚ) * 100) ∧
      0 ≤ r.winning_probability ∧ r.winning_probability ≤ 100 := by
  have hlen : cats.length ≠ 0 := fun h0 => h (List.length_eq_zero.mp h0)
  have hlenpos : 0 < cats.length := Nat.pos_of_ne_zero hlen
  unfold calculate_h2h_categories
  rw [if_neg hlen]
  refine ⟨_, rfl, rfl, ?_, ?_⟩ <;> dsimp only
  · apply pyRound_nonneg
    have hn : (0 : ℚ) < (cats.length : ℚ) := by exact_mod_cast hlenpos
    positivity
  · have hwins : ((cats.map (h2hCatEntry my opp g)).filter
        (fun c => c.status = "win")).length ≤ cats.length := by
      calc ((cats.map (h2hCatEntry my opp g)).filter
            (fun c => c.status = "win")).length
          ≤ (cats.map (h2hCatEntry my opp g)).length := List.length_filter_le _ _
        _ = cats.length := List.length_map _ _
    have hn : (0 : ℚ) < (cats.length : ℚ) := by exact_mod_cast hlenpos
    have hq : (((cats.map (h2hCatEntry my opp g)).filter
          (fun c => c.status = "win")).length : ℚ) / (cats.length : ℚ) * 100 ≤
        ((100 : ℤ) : ℚ) := by
      have hr : (((cats.map (h2hCatEntry my opp g)).filter
            (fun c => c.status = "win")).length : ℚ) / (cats.length : ℚ) ≤ 1 := by
        rw [div_le_one hn]
        exact_mod_cast hwins
      push_cast
      nlinarith [hr]
    have := @pyRound_le_intCast 1 _ 100 hq
    calc pyRound 1 ((((cats.map (h2hCatEntry my opp g)).filter
          (fun c => c.status = "win")).length : ℚ) / (cats.length : ℚ) * 100)
        ≤ ((100 : ℤ) : ℚ) := this
      _ = 100 := by norm_num

/-- Witness for the amended C3 on a concrete three-category matchup. -/
theorem calculate_h2h_categories_winning_probability_witness :
    ∃ r, calculate_h2h_categories [demoPointsOnly] [demoRebAst] ["PTS", "REB", "AST"] 1
        = some r ∧
      r.winning_probability =
        pyRound 1 ((r.wins : ℚ) / ((["PTS", "REB", "AST"] : List String).length : ℚ) * 100) ∧
      0 ≤ r.winning_probability ∧ r.winning_probability ≤ 100 :=
  calculate_h2h_categories_winning_probability [demoPointsOnly] [demoRebAst]
    ["PTS", "REB", "AST"] 1 (by simp)

/-! ### C4: the optimizer entry points mutate their inputs -/

/-- A zero-stat roster player (roto value 0). -/
def mutA : PlayerProjection := { player_id := 1 }

/-- A roster player with 2 points per game (roto value 1). -/
def mutB : PlayerProjection := { player_id := 2, points_per_game := 2 }

/-- Counterexample to C4: `optimize_lineup` writes the computed value into
each input record and sorts the caller's list in place (the zero-value player
moves behind the scorer), and `generate_streaming_suggestions` writes
`games_remaining` and `remaining_value` into each roster record; the input
lists do not keep their original records or order. -/
theorem core_mutation_cex :
    rosterAfterOptimizeLineup [mutA, mutB] "roto" ≠ [mutA, mutB] ∧
    (rosterAfterOptimizeLineup [mutA, mutB] "roto").map (fun p => p.player_id) = [2, 1] ∧
    rosterAfterStreamingSuggestions [mutB] [] ≠ [mutB] := by
  have hids : (rosterAfterOptimizeLineup [mutA, mutB] "roto").map
      (fun p => p.player_id) = [2, 1] := by
    simp [rosterAfterOptimizeLineup, sortDesc, insertDesc, calculate_player_value,
      mutA, mutB]
  have hrv : (rosterAfterStreamingSuggestions [mutB] []).map
      (fun p => p.remaining_value) = [2] := by
    simp [rosterAfterStreamingSuggestions, sortAsc, insertAsc, streamRosterWrite,
      calculate_base_value, mutB]
  refine ⟨?_, hids, ?_⟩
  · intro heq
    rw [heq] at hids
    simp [mutA, mutB] at hids
  · intro heq
    rw [heq] at hrv
    simp [mutB] at hrv

/-- C4 as amended: the two mutating entry points change their input exactly
by the documented field writes and the in-place sort — afterwards the
caller's list is a permutation of the field-updated originals, so no record
is added or dropped and every other field keeps its value. -/
theorem core_mutation_amended (roster : List PlayerProjection) (st : String)
    (gd : List (ℕ × ℕ)) :
    (rosterAfterOptimizeLineup roster st).Perm
      (roster.map (fun p => { p with value := calculate_player_value p st })) ∧
    (rosterAfterStreamingSuggestions roster gd).Perm
      (roster.map (streamRosterWrite gd)) :=
  ⟨sortDesc_perm _ _, sortAsc_perm _ _⟩

/-! ### C8: opponent analyzer dispatch and totality -/

lemma calculate_h2h_categories_isSome (my opp : List PlayerProjection)
    (cats : List String) (g : ℚ) :
    (calculate_h2h_categories my opp cats g).isSome ↔ cats ≠ [] := by
  unfold calculate_h2h_categories
  by_cases h : cats.length = 0
  · rw [if_pos h]
    simp [List.length_eq_zero.mp h]
  · rw [if_neg h]
    simp only [Option.isSome_some, true_iff]
    intro hc
    exact h (by simp [hc])

lemma analyze_h2h_points_matchup_isSome (my opp : List PlayerProjection)
    (config : LeagueConfig) :
    (analyze_h2h_points_matchup my opp config).isSome ↔
      ((calculate_h2h_points my config.points_values
          config.games_per_week).total_fantasy_points ≠ 0 ∧
        (calculate_h2h_points opp config.points_values
          config.games_per_week).total_fantasy_points ≠ 0) := by
  unfold analyze_h2h_points_matchup generate_points_strategies
  dsimp only
  set a := (calculate_h2h_points my config.points_values
    config.games_per_week).total_fantasy_points with ha
  set b := (calculate_h2h_points opp config.points_values
    config.games_per_week).total_fantasy_points with hb
  rcases lt_trichotomy b a with hab | hab | hab
  · rw [if_pos hab]
    by_cases hb0 : b = 0
    · rw [if_pos hb0]
      simp [hb0]
    · rw [if_neg hb0]
      have hmax : a ⊔ b = a := max_eq_left (le_of_lt hab)
      rw [hmax]
      by_cases ha0 : a = 0
      · rw [if_pos ha0]
        simp [ha0]
      · rw [if_neg ha0]
        simp [ha0, hb0]
  · have h1 : ¬ b < a := by rw [hab]; exact lt_irrefl a
    have h2 : ¬ a < b := by rw [hab]; exact lt_irrefl a
    rw [if_neg h1, if_neg h2]
    have hmax : a ⊔ b = a := by rw [hab]; exact max_self a
    rw [hmax]
    by_cases ha0 : a = 0
    · rw [if_pos ha0]
      simp [ha0, hab]
    · rw [if_neg ha0]
      simp [ha0, hab]
  · have h1 : ¬ b < a := not_lt.mpr (le_of_lt hab)
    rw [if_neg h1, if_pos hab]
    by_cases ha0 : a = 0
    · rw [if_pos ha0]
      simp [ha0]
    · rw [if_neg ha0]
      have hmax : a ⊔ b = b := max_eq_right (le_of_lt hab)
      rw [hmax]
      by_cases hb0 : b = 0
      · rw [if_pos hb0]
        simp [hb0]
      · rw [if_neg hb0]
        simp [ha0, hb0]

lemma calculate_h2h_points_demo_my :
    (calculate_h2h_points [demoPointsOnly] [("PTS", 1)] 2).total_fantasy_points = 20 := by
  unfold calculate_h2h_points playerFantasyPoints
  simp [pointsStatKey, projGet, demoPointsOnly]
  rw [show (10 * 2 : ℚ) = 20 by norm_num, pyRound_ofInt 1 20 200 (by norm_num)]
  norm_num

lemma calculate_h2h_points_demo_empty :
    (calculate_h2h_points [] [("PTS", 1)] 2).total_fantasy_points = 0 := by
  unfold calculate_h2h_points
  simp
  rw [pyRound_ofInt 1 0 0 (by norm_num)]
  norm_num

/-- Counterexample to C8: the error payload's message is "Unsupported scoring
type for matchup analysis", not "Unsupported scoring type"; and on the
expected domain condition of an empty opponent roster the h2h-points matchup
analysis raises `ZeroDivisionError` (dividing by the zero opponent total)
rather than returning a record. -/
theorem analyze_h2h_matchup_cex :
    analyze_h2h_matchup [] [] { scoring_type := "roto" } =
      some (.errorPayload "Unsupported scoring type for matchup analysis") ∧
    "Unsupported scoring type for matchup analysis" ≠ "Unsupported scoring type" ∧
    analyze_h2h_matchup [demoPointsOnly] []
        { scoring_type := "h2h_points", points_values := [("PTS", 1)],
          games_per_week := 2 } = none := by
  refine ⟨by simp [analyze_h2h_matchup], by decide, ?_⟩
  have hnone : analyze_h2h_points_matchup [demoPointsOnly] []
      { scoring_type := "h2h_points", points_values := [("PTS", 1)],
        games_per_week := 2 } = none := by
    have h := analyze_h2h_points_matchup_isSome [demoPointsOnly] []
      { scoring_type := "h2h_points", points_values := [("PTS", 1)],
        games_per_week := 2 }
    rw [calculate_h2h_points_demo_my, calculate_h2h_points_demo_empty] at h
    simp at h
    exact Option.not_isSome_iff_eq_none.mp (by rw [h]; simp)
  simp [analyze_h2h_matchup, hnone]

/-- C8 as amended: the error payload of the dispatch carries the message
"Unsupported scoring type for matchup analysis" and is returned exactly when
`scoring_type` is neither supported mode; within the supported modes the
analyzer returns a record exactly when it does not raise — for categories
mode exactly when the category list is non-empty, for points mode exactly
when both rounded team totals are non-zero. -/
theorem analyze_h2h_matchup_dispatch (my opp : List PlayerProjection)
    (config : LeagueConfig) :
    (analyze_h2h_matchup my opp config =
        some (.errorPayload "Unsupported scoring type for matchup analysis") ↔
      (config.scoring_type ≠ "h2h_categories" ∧ config.scoring_type ≠ "h2h_points")) ∧
    (∀ s, analyze_h2h_matchup my opp config = some (.errorPayload s) →
      s = "Unsupported scoring type for matchup analysis") ∧
    (config.scoring_type = "h2h_categories" →
      ((analyze_h2h_matchup my opp config).isSome ↔ config.categories ≠ [])) ∧
    (config.scoring_type = "h2h_points" →
      ((analyze_h2h_matchup my opp config).isSome ↔
        ((calculate_h2h_points my config.points_values
            config.games_per_week).total_fantasy_points ≠ 0 ∧
          (calculate_h2h_points opp config.points_values
            config.games_per_week).total_fantasy_points ≠ 0))) := by
  unfold analyze_h2h_matchup
  by_cases h1 : config.scoring_type = "h2h_categories"
  · rw [if_pos h1]
    refine ⟨?_, ?_, ?_, ?_⟩
    · cases ho : calculate_h2h_categories my opp config.categories config.games_per_week <;>
        simp [h1]
    · intro s hs
      cases ho : calculate_h2h_categories my opp config.categories config.games_per_week <;>
        rw [ho] at hs <;> simp at hs
    · intro _
      rw [← calculate_h2h_categories_isSome my opp config.categories config.games_per_week]
      cases ho : calculate_h2h_categories my opp config.categories config.games_per_week <;>
        simp [ho]
    · intro h4
      rw [h1] at h4
      simp at h4
  · rw [if_neg h1]
    by_cases h2 : config.scoring_type = "h2h_points"
    · rw [if_pos h2]
      refine ⟨?_, ?_, ?_, ?_⟩
      · cases ho : analyze_h2h_points_matchup my opp config <;> simp [h2]
      · intro s hs
        cases ho : analyze_h2h_points_matchup my opp config <;>
          rw [ho] at hs <;> simp at hs
      · intro h3
        exact absurd h3 h1
      · intro _
        rw [← analyze_h2h_points_matchup_isSome my opp config]
        cases ho : analyze_h2h_points_matchup my opp config <;> simp [ho]
    · rw [if_neg h2]
      refine ⟨?_, ?_, ?_, ?_⟩
      · simp [h1, h2]
      · intro s hs
        simp at hs
        exact hs.symm
      · intro h3
        exact absurd h3 h1
      · intro h4
        exact absurd h4 h2

/-- Witness for the amended C8: a roto league draws the error payload. -/
theorem analyze_h2h_matchup_dispatch_witness :
    analyze_h2h_matchup [] [] { scoring_type := "roto" } =
      some (.errorPayload "Unsupported scoring type for matchup analysis") :=
  (analyze_h2h_matchup_dispatch [] [] { scoring_type := "roto" }).1.mpr
    ⟨by decide, by decide⟩

/-! ### C2: lineup partition -/

/-- All players stored in the lineup dict. -/
def lineupPlayers (lineup : List (String × List PlayerProjection)) :
    List PlayerProjection :=
  (lineup.map (fun kv => kv.2)).flatten

lemma scanAssign_sound (elig : PlayerProjection → Bool) :
    ∀ (roster : List PlayerProjection) (assigned : List ℕ) (n : ℕ),
      ((scanAssign roster elig assigned n).map (fun p => p.player_id)).Nodup ∧
      ∀ p ∈ scanAssign roster elig assigned n, p ∈ roster ∧ p.player_id ∉ assigned := by
  intro roster
  induction roster with
  | nil =>
    intro assigned n
    cases n <;> simp [scanAssign]
  | cons q rest ih =>
    intro assigned n
    cases n with
    | zero => simp [scanAssign]
    | succ m =>
      rw [scanAssign]
      by_cases hq : q.player_id ∈ assigned
      · rw [if_pos hq]
        obtain ⟨h1, h2⟩ := ih assigned (m + 1)
        exact ⟨h1, fun p hp => ⟨List.mem_cons_of_mem q (h2 p hp).1, (h2 p hp).2⟩⟩
      · rw [if_neg hq]
        by_cases he : elig q
        · rw [if_pos he]
          obtain ⟨h1, h2⟩ := ih (q.player_id :: assigned) m
          refine ⟨?_, ?_⟩
          · rw [List.map_cons, List.nodup_cons]
            refine ⟨?_, h1⟩
            intro hmem
            obtain ⟨p, hp, hpid⟩ := List.mem_map.mp hmem
            exact (h2 p hp).2 (hpid ▸ List.mem_cons_self _ _)
          · intro p hp
            rcases List.mem_cons.mp hp with rfl | hp'
            · exact ⟨List.mem_cons_self _ _, hq⟩
            · exact ⟨List.mem_cons_of_mem q (h2 p hp').1,
                fun hmem => (h2 p hp').2 (List.mem_cons_of_mem _ hmem)⟩
        · rw [if_neg he]
          obtain ⟨h1, h2⟩ := ih assigned (m + 1)
          exact ⟨h1, fun p hp => ⟨List.mem_cons_of_mem q (h2 p hp).1, (h2 p hp).2⟩⟩

lemma dictGetD_lineupInit (reqs : List (String × ℕ)) (k : String) :
    dictGetD (lineupInit reqs) k [] = ([] : List PlayerProjection) := by
  induction reqs with
  | nil => rfl
  | cons kv rest ih =>
    unfold lineupInit dictGetD at ih ⊢
    simp only [List.map_cons, List.find?]
    by_cases h : kv.1 = k
    · simp [h]
    · simp only [h, decide_eq_true_eq, if_neg]
      simpa using ih

lemma dictGetD_dictSet_ne {α : Type} (l : List (String × α)) (pos k : String)
    (v d : α) (hk : k ≠ pos) :
    dictGetD (dictSet l pos v) k d = dictGetD l k d := by
  induction l with
  | nil =>
    unfold dictSet dictGetD
    simp [Ne.symm hk]
  | cons kv rest ih =>
    unfold dictSet
    by_cases h : kv.1 = pos
    · rw [if_pos h]
      unfold dictGetD
      simp only [List.find?]
      have h1 : (pos = k) = False := by simp [Ne.symm hk]
      have h2 : (kv.1 = k) = False := by simp [h, Ne.symm hk]
      simp [h1, h2]
    · rw [if_neg h]
      unfold dictGetD at ih ⊢
      simp only [List.find?]
      by_cases h2 : kv.1 = k
      · simp [h2]
      · simp only [h2, decide_eq_true_eq, if_neg]
        simpa using ih

lemma flatten_dictSet {α : Type} (l : List (String × List α)) (pos : String)
    (v : List α) (hl : dictGetD l pos [] = []) :
    (((dictSet l pos v).map (fun kv => kv.2)).flatten).Perm
      (v ++ (l.map (fun kv => kv.2)).flatten) := by
  induction l with
  | nil =>
    simp [dictSet]
  | cons kv rest ih =>
    unfold dictSet
    by_cases h : kv.1 = pos
    · rw [if_pos h]
      have hkv : kv.2 = [] := by
        unfold dictGetD at hl
        simp [List.find?, h] at hl
        simpa using hl
      simp [hkv]
    · rw [if_neg h]
      have hrest : dictGetD rest pos [] = [] := by
        unfold dictGetD at hl ⊢
        simp only [List.find?, decide_eq_false h] at hl
        exact hl
      have step1 : ((kv :: dictSet rest pos v).map (fun kv => kv.2)).flatten
          = kv.2 ++ ((dictSet rest pos v).map (fun kv => kv.2)).flatten := by simp
      rw [step1]
      refine ((ih hrest).append_left kv.2).trans ?_
      have step2 : ((kv :: rest).map (fun kv => kv.2)).flatten
          = kv.2 ++ (rest.map (fun kv => kv.2)).flatten := by simp
      rw [step2, ← List.append_assoc, ← List.append_assoc]
      exact List.perm_append_comm.append_right _

/-- Invariant carried through the fill blocks: the ids stored in the lineup
are distinct, every stored player comes from the roster, and the assigned-id
set matches the stored players. -/
def AssignInv (roster : List PlayerProjection)
    (st : List (String × List PlayerProjection) × List ℕ) : Prop :=
  ((lineupPlayers st.1).map (fun p => p.player_id)).Nodup ∧
  (∀ p ∈ lineupPlayers st.1, p ∈ roster) ∧
  st.2.Perm ((lineupPlayers st.1).map (fun p => p.player_id))

lemma fillStage_inv (roster : List PlayerProjection) (reqs : List (String × ℕ))
    (st : List (String × List PlayerProjection) × List ℕ) (pos : String)
    (elig : PlayerProjection → Bool) (hinv : AssignInv roster st)
    (hpos : dictGetD st.1 pos [] = []) :
    AssignInv roster (fillStage roster reqs st pos elig) := by
  unfold fillStage
  cases h : lookupReq reqs pos with
  | none => exact hinv
  | some n =>
    obtain ⟨hnd, hmem, hperm⟩ := hinv
    obtain ⟨hnd2, hsound⟩ := scanAssign_sound elig roster st.2 n
    have hflat := flatten_dictSet st.1 pos (scanAssign roster elig st.2 n) hpos
    have hflatids := hflat.map (fun p => p.player_id)
    have happend : ((scanAssign roster elig st.2 n ++ lineupPlayers st.1).map
        (fun p => p.player_id)).Nodup := by
      rw [List.map_append]
      refine List.Nodup.append hnd2 hnd ?_
      intro x hx1 hx2
      obtain ⟨p, hp, rfl⟩ := List.mem_map.mp hx1
      exact (hsound p hp).2 (hperm.mem_iff.mpr hx2)
    refine ⟨?_, ?_, ?_⟩
    · exact (hflatids.nodup_iff).mpr happend
    · intro p hp
      have := hflat.mem_iff.mp hp
      rcases List.mem_append.mp this with h1 | h1
      · exact (hsound p h1).1
      · exact hmem p h1
    · refine List.Perm.trans ?_ hflatids.symm
      rw [List.map_append]
      exact hperm.append_left _

lemma dictGetD_fillStage_ne (roster : List PlayerProjection)
    (reqs : List (String × ℕ)) (st : List (String × List PlayerProjection) × List ℕ)
    (pos k : String) (elig : PlayerProjection → Bool) (hk : k ≠ pos) :
    dictGetD (fillStage roster reqs st pos elig).1 k [] = dictGetD st.1 k [] := by
  unfold fillStage
  cases h : lookupReq reqs pos with
  | none => rfl
  | some n => exact dictGetD_dictSet_ne st.1 pos k _ [] hk

lemma fillStages_inv (roster : List PlayerProjection) (reqs : List (String × ℕ))
    (stages : List (String × (PlayerProjection → Bool))) :
    ∀ (st : List (String × List PlayerProjection) × List ℕ),
      AssignInv roster st →
      (∀ pe ∈ stages, dictGetD st.1 pe.1 [] = []) →
      (stages.map Prod.fst).Nodup →
      AssignInv roster (fillStages roster reqs st stages) := by
  induction stages with
  | nil =>
    intro st hinv _ _
    exact hinv
  | cons pe rest ih =>
    intro st hinv hempty hnd
    rw [fillStages]
    rw [List.map_cons, List.nodup_cons] at hnd
    apply ih
    · exact fillStage_inv roster reqs st pe.1 pe.2 hinv
        (hempty pe (List.mem_cons_self _ _))
    · intro qe hqe
      rw [dictGetD_fillStage_ne]
      · exact hempty qe (List.mem_cons_of_mem _ hqe)
      · intro heq
        exact hnd.1 (heq ▸ List.mem_map_of_mem Prod.fst hqe)
    · exact hnd.2

lemma dictGetD_fillStages_ne (roster : List PlayerProjection)
    (reqs : List (String × ℕ)) (stages : List (String × (PlayerProjection → Bool)))
    (k : String) :
    ∀ (st : List (String × List PlayerProjection) × List ℕ),
      (∀ pe ∈ stages, k ≠ pe.1) →
      dictGetD (fillStages roster reqs st stages).1 k [] = dictGetD st.1 k [] := by
  induction stages with
  | nil =>
    intro st _
    rfl
  | cons pe rest ih =>
    intro st hk
    rw [fillStages]
    rw [ih _ (fun qe hqe => hk qe (List.mem_cons_of_mem _ hqe)),
      dictGetD_fillStage_ne roster reqs st pe.1 k pe.2 (hk pe (List.mem_cons_self _ _))]

lemma lineupPlayers_init (reqs : List (String × ℕ)) :
    lineupPlayers (lineupInit reqs) = [] := by
  induction reqs with
  | nil => rfl
  | cons kv rest ih =>
    unfold lineupPlayers lineupInit at ih ⊢
    simpa using ih

lemma filter_key_dictSet {α : Type} (l : List (String × α)) (pos k : String)
    (v : α) (hk : k ≠ pos) :
    (dictSet l pos v).filter (fun kv => kv.1 = k) = l.filter (fun kv => kv.1 = k) := by
  induction l with
  | nil =>
    simp [dictSet, decide_eq_false (Ne.symm hk)]
  | cons kv rest ih =>
    unfold dictSet
    by_cases h : kv.1 = pos
    · rw [if_pos h]
      have h1 : ((pos, v).1 = k) = False := by simp [Ne.symm hk]
      have h2 : (kv.1 = k) = False := by
        simp only [eq_iff_iff, iff_false]
        intro hc
        exact hk (hc.symm.trans h)
      simp [List.filter_cons, h1, h2]
    · rw [if_neg h]
      simp [List.filter_cons, ih]

lemma filter_key_fillStage (roster : List PlayerProjection)
    (reqs : List (String × ℕ)) (st : List (String × List PlayerProjection) × List ℕ)
    (pos k : String) (elig : PlayerProjection → Bool) (hk : k ≠ pos) :
    (fillStage roster reqs st pos elig).1.filter (fun kv => kv.1 = k) =
      st.1.filter (fun kv => kv.1 = k) := by
  unfold fillStage
  cases h : lookupReq reqs pos with
  | none => rfl
  | some n => exact filter_key_dictSet st.1 pos k _ hk

lemma filter_key_fillStages (roster : List PlayerProjection)
    (reqs : List (String × ℕ)) (stages : List (String × (PlayerProjection → Bool)))
    (k : String) :
    ∀ (st : List (String × List PlayerProjection) × List ℕ),
      (∀ pe ∈ stages, k ≠ pe.1) →
      (fillStages roster reqs st stages).1.filter (fun kv => kv.1 = k) =
        st.1.filter (fun kv => kv.1 = k) := by
  induction stages with
  | nil =>
    intro st _
    rfl
  | cons pe rest ih =>
    intro st hk
    rw [fillStages, ih _ (fun qe hqe => hk qe (List.mem_cons_of_mem _ hqe)),
      filter_key_fillStage roster reqs st pe.1 k pe.2 (hk pe (List.mem_cons_self _ _))]

lemma filter_ne_dictSet {α : Type} (l : List (String × α)) (pos : String) (v : α) :
    (dictSet l pos v).filter (fun kv => kv.1 ≠ pos) = l.filter (fun kv => kv.1 ≠ pos) := by
  induction l with
  | nil => simp [dictSet]
  | cons kv rest ih =>
    unfold dictSet
    by_cases h : kv.1 = pos
    · rw [if_pos h]
      simp [List.filter_cons, h]
    · rw [if_neg h]
      simp only [decide_not] at ih
      simp [List.filter_cons, h, ih]

lemma sum_lens_filter_partition (l : List (String × List PlayerProjection)) :
    ((l.filter (fun kv => kv.1 ≠ "BE")).map (fun kv => kv.2.length)).sum +
      ((l.filter (fun kv => kv.1 = "BE")).map (fun kv => kv.2.length)).sum =
      (l.map (fun kv => kv.2.length)).sum := by
  induction l with
  | nil => simp
  | cons kv rest ih =>
    by_cases h : kv.1 = "BE"
    · simp only [decide_not] at ih
      simp [List.filter_cons, h]
      omega
    · simp only [decide_not] at ih
      simp [List.filter_cons, h]
      omega

lemma nodup_filter_partition (l S : List ℕ) (hl : l.Nodup) (hS : S.Nodup)
    (hsub : ∀ a ∈ S, a ∈ l) :
    (S ++ l.filter (fun a => a ∉ S)).Perm l := by
  apply List.perm_of_nodup_nodup_toFinset_eq
  · refine List.Nodup.append hS (hl.filter _) ?_
    intro x hx1 hx2
    rw [List.mem_filter] at hx2
    simp at hx2
    exact hx2.2 hx1
  · exact hl
  · ext x
    simp only [List.mem_toFinset, List.mem_append, List.mem_filter, decide_not,
      Bool.not_eq_true', decide_eq_false_iff_not]
    constructor
    · rintro (h | ⟨h, _⟩)
      · exact hsub x h
      · exact h
    · intro h
      by_cases hx : x ∈ S
      · exact Or.inl hx
      · exact Or.inr ⟨h, hx⟩

lemma lineupStages_ne_BE : ∀ pe ∈ lineupStages, "BE" ≠ pe.1 := by
  intro pe hpe
  simp only [lineupStages, List.mem_cons, List.not_mem_nil, or_false] at hpe
  rcases hpe with rfl | rfl | rfl | rfl | rfl | rfl | rfl | rfl <;> decide

lemma lineupStages_keys_nodup : (lineupStages.map Prod.fst).Nodup := by
  simp only [lineupStages, List.map_cons, List.map_nil]
  decide

lemma init_filter_lens_zero (reqs : List (String × ℕ)) (pred : String × List PlayerProjection → Bool) :
    ((((lineupInit reqs).filter pred)).map (fun kv => kv.2.length)).sum = 0 := by
  induction reqs with
  | nil => rfl
  | cons kv rest ih =>
    unfold lineupInit at ih ⊢
    rw [List.map_cons, List.filter_cons]
    by_cases h : pred (kv.1, [])
    · simp [h, ih]
    · simp [h, ih]

/-- C2: for a roster with pairwise-distinct player ids, `optimize_lineup`
places every roster player in exactly one slot of the returned lineup dict
(the bench `BE` included): the stored players' ids are a permutation of the
roster's ids with no duplicates, and the starter count plus the bench count
equals the roster size.  The embedding is a pure function of its inputs, so
the assignment is deterministic for a fixed input order. -/
theorem optimize_lineup_partition (roster0 : List PlayerProjection)
    (reqs : List (String × ℕ)) (st : String)
    (hids : (roster0.map (fun p => p.player_id)).Nodup) :
    ((lineupPlayers (optimize_lineup roster0 reqs st).lineup).map
        (fun p => p.player_id)).Perm (roster0.map (fun p => p.player_id)) ∧
    ((lineupPlayers (optimize_lineup roster0 reqs st).lineup).map
        (fun p => p.player_id)).Nodup ∧
    (optimize_lineup roster0 reqs st).starting_count +
        (optimize_lineup roster0 reqs st).bench_count = roster0.length := by
  set roster := rosterAfterOptimizeLineup roster0 st with hroster
  have hids2 : (roster.map (fun p => p.player_id)).Perm
      (roster0.map (fun p => p.player_id)) := by
    have h1 := (sortDesc_perm (fun p => p.value)
      (roster0.map (fun p => { p with value := calculate_player_value p st }))).map
      (fun p => p.player_id)
    rw [hroster]
    unfold rosterAfterOptimizeLineup
    refine h1.trans ?_
    rw [List.map_map]
    exact List.Perm.refl _
  have hrnodup : (roster.map (fun p => p.player_id)).Nodup := (hids2.nodup_iff).mpr hids
  have hinv : AssignInv roster (fillAll roster reqs) := by
    unfold fillAll
    apply fillStages_inv
    · refine ⟨?_, ?_, ?_⟩ <;> simp [AssignInv, lineupPlayers_init reqs]
    · intro pe _
      exact dictGetD_lineupInit reqs pe.1
    · exact lineupStages_keys_nodup
  obtain ⟨hAnodup, hAmem, hAperm⟩ := hinv
  have hasgnd : (fillAll roster reqs).2.Nodup := (hAperm.nodup_iff).mpr hAnodup
  have hsub : ∀ a ∈ (fillAll roster reqs).2, a ∈ roster.map (fun p => p.player_id) := by
    intro a ha
    obtain ⟨p, hp, rfl⟩ := List.mem_map.mp (hAperm.mem_iff.mp ha)
    exact List.mem_map_of_mem _ (hAmem p hp)
  have hbench_ids : ((roster.filter
        (fun p => p.player_id ∉ (fillAll roster reqs).2)).map (fun p => p.player_id))
      = (roster.map (fun p => p.player_id)).filter
          (fun a => a ∉ (fillAll roster reqs).2) := by
    rw [List.filter_map]
    rfl
  have hkey := nodup_filter_partition (roster.map (fun p => p.player_id))
    (fillAll roster reqs).2 hrnodup hasgnd hsub
  have hBE : dictGetD (fillAll roster reqs).1 "BE" [] = [] := by
    unfold fillAll
    rw [dictGetD_fillStages_ne roster reqs lineupStages "BE" _ lineupStages_ne_BE]
    exact dictGetD_lineupInit reqs "BE"
  have hflatF := flatten_dictSet (fillAll roster reqs).1 "BE"
    (roster.filter (fun p => p.player_id ∉ (fillAll roster reqs).2)) hBE
  have hout : (optimize_lineup roster0 reqs st).lineup =
      dictSet (fillAll roster reqs).1 "BE"
        (roster.filter (fun p => p.player_id ∉ (fillAll roster reqs).2)) := rfl
  have goal1 : ((lineupPlayers (optimize_lineup roster0 reqs st).lineup).map
      (fun p => p.player_id)).Perm (roster0.map (fun p => p.player_id)) := by
    rw [hout]
    refine (hflatF.map (fun p => p.player_id)).trans ?_
    rw [List.map_append]
    refine List.Perm.trans ?_ (hkey.trans hids2)
    rw [hbench_ids]
    exact List.perm_append_comm.trans
      ((List.Perm.append_right _ hAperm.symm).symm).symm
  refine ⟨goal1, (goal1.nodup_iff).mpr hids, ?_⟩
  have hbenchlen : (optimize_lineup roster0 reqs st).bench_count =
      (roster.filter (fun p => p.player_id ∉ (fillAll roster reqs).2)).length := rfl
  have hstart : (optimize_lineup roster0 reqs st).starting_count =
      ((((optimize_lineup roster0 reqs st).lineup).filter
        (fun kv => kv.1 ≠ "BE")).map (fun kv => kv.2.length)).sum := rfl
  have hstart2 : (optimize_lineup roster0 reqs st).starting_count =
      (((fillAll roster reqs).1.filter
        (fun kv => kv.1 ≠ "BE")).map (fun kv => kv.2.length)).sum := by
    rw [hstart, hout, filter_ne_dictSet]
  have hBEfilter : (fillAll roster reqs).1.filter (fun kv => kv.1 = "BE")
      = (lineupInit reqs).filter (fun kv => kv.1 = "BE") := by
    unfold fillAll
    exact filter_key_fillStages roster reqs lineupStages "BE" _ lineupStages_ne_BE
  have hBEsum : (((fillAll roster reqs).1.filter
      (fun kv => kv.1 = "BE")).map (fun kv => kv.2.length)).sum = 0 := by
    rw [hBEfilter]
    exact init_filter_lens_zero reqs _
  have hpart := sum_lens_filter_partition (fillAll roster reqs).1
  have hAlen : (lineupPlayers (fillAll roster reqs).1).length =
      ((fillAll roster reqs).1.map (fun kv => kv.2.length)).sum := by
    unfold lineupPlayers
    rw [List.length_flatten, List.map_map]
    rfl
  have htot : (lineupPlayers (optimize_lineup roster0 reqs st).lineup).length
      = roster0.length := by
    have := goal1.length_eq
    rw [List.length_map, List.length_map] at this
    exact this
  have hsplit : (lineupPlayers (optimize_lineup roster0 reqs st).lineup).length =
      (roster.filter (fun p => p.player_id ∉ (fillAll roster reqs).2)).length +
        (lineupPlayers (fillAll roster reqs).1).length := by
    rw [hout]
    have := hflatF.length_eq
    unfold lineupPlayers
    rw [this, List.length_append]
  rw [hstart2, hbenchlen]
  omega

/-- Witness for C2 on a concrete two-player roster. -/
theorem optimize_lineup_partition_witness :
    ((lineupPlayers (optimize_lineup [demoPointsOnly, demoRebAst]
          [("PG", 1), ("UTIL", 1)] "roto").lineup).map
        (fun p => p.player_id)).Perm
      ([demoPointsOnly, demoRebAst].map (fun p => p.player_id)) ∧
    ((lineupPlayers (optimize_lineup [demoPointsOnly, demoRebAst]
          [("PG", 1), ("UTIL", 1)] "roto").lineup).map
        (fun p => p.player_id)).Nodup ∧
    (optimize_lineup [demoPointsOnly, demoRebAst]
          [("PG", 1), ("UTIL", 1)] "roto").starting_count +
        (optimize_lineup [demoPointsOnly, demoRebAst]
          [("PG", 1), ("UTIL", 1)] "roto").bench_count = 2 :=
  optimize_lineup_partition [demoPointsOnly, demoRebAst]
    [("PG", 1), ("UTIL", 1)] "roto" (by decide)
